import Mathlib

/-!
# pgdiff, column.go: the column instantiation of the schema diff

A shallow embedding of `column.go`.  Go strings are Lean strings, a Go
`map[string]string` is an association list read with the Go rule that a missing
key yields the empty string, and everything written to standard output is
collected, in order, in one string.
-/

namespace Pgdiff

/-! ## Data model -/

/-- A metadata row, `map[string]string`: attribute name to value. -/
abbrev Row := List (String × String)

/-- Go map indexing `row[key]`: the value stored under `key`, or the zero value `""`. -/
def Row.get (row : Row) (key : String) : String :=
  (row.lookup key).getD ""

/-- Go `len(row)`. -/
def Row.len (row : Row) : Nat :=
  row.length

/-- The struct `ColumnSchema`: the stream of rows still to come, the current row, the done flag. -/
structure ColumnSchema where
  channel : List Row
  row : Row
  done : Bool

/-! ## Helpers that column.go calls -/

/-- Modelled from the spec: `_compareString` is called by `Compare` but defined outside
column.go.  The spec asks for an ordinal, byte-wise, locale-free three-way comparison with
results in {-1, 0, 1}: 0 on equal strings, a negative result when the first string precedes
the second.  Lean orders strings lexicographically by Unicode scalar value, which is the
order of their UTF-8 bytes; `s1 < s2` is written on the character lists, where it can be
evaluated. -/
def _compareString (s1 s2 : String) : Int :=
  if s1 = s2 then 0
  else if s1.data < s2.data then -1
  else 1

/-- Go `fmt.Printf` with the format already filled in: `text` is appended to standard output. -/
def Printf (out : String) (text : String) : String :=
  out ++ text

/-- Go `fmt.Println` of one string: the string and a line break are appended to standard output. -/
def Println (out : String) (text : String) : String :=
  out ++ text ++ "\n"

/-- The decimal digits of `strconv.Atoi`: `n` is the value read so far. -/
def atoiDigits (n : Nat) : List Char → Option Nat
  | [] => some n
  | ch :: rest =>
    if '0' ≤ ch ∧ ch ≤ '9' then atoiDigits (n * 10 + (ch.toNat - '0'.toNat)) rest else none

/-- Go `strconv.Atoi` of the standard library, for a 64-bit `int`: an optional sign, then one
or more decimal digits, and a value that fits `int`.  `none` is a non-nil error. -/
def Atoi (s : String) : Option Int :=
  let (neg, body) : Bool × List Char :=
    match s.data with
    | '-' :: rest => (true, rest)
    | '+' :: rest => (false, rest)
    | cs => (false, cs)
  if body = [] then none
  else
    match atoiDigits 0 body with
    | none => none
    | some n =>
      if neg then (if n ≤ 2 ^ 63 then some (-(n : Int)) else none)
      else (if n < 2 ^ 63 then some (n : Int) else none)

/-- A run that was aborted: the text written to standard output until then, and the message
of the fatal error. -/
structure Fatal where
  stdout : String
  msg : String
  deriving DecidableEq, Repr

/-- Modelled from the spec: `check` is called by `Change` but defined outside column.go.  The
spec makes a numeric parse failure fatal: the run aborts at once and there is no recovery.
`check out msg r` hands on the value of `r` when there is no error and aborts the run
otherwise; `out` is what standard output holds at the call. -/
def check (out : String) (msg : String) (r : Option Int) : Except Fatal Int :=
  match r with
  | some n => .ok n
  | none => .error { stdout := out, msg := msg }

/-! ## Compare -/

/-- Method `func (c ColumnSchema) Compare(obj interface{}) int`, for `obj` a `*ColumnSchema`. -/
def ColumnSchema.Compare (c c2 : ColumnSchema) : Int :=
  let val := _compareString (c.row.get "table_name") (c2.row.get "table_name")
  if val ≠ 0 then
    -- Table name differed so return that value
    val
  else
    -- Table name was the same so compare column name
    let val := _compareString (c.row.get "column_name") (c2.row.get "column_name")
    val

/-! ## Add and Drop -/

/-- Method `func (c ColumnSchema) Add()`: the text written to standard output, after `out`. -/
def ColumnSchema.Add (c : ColumnSchema) (out : String) : String :=
  let out :=
    if c.row.get "data_type" = "character varying" then
      let maxLength := c.row.get "character_maximum_length"
      let (out, maxLength) :=
        if maxLength = "null" then
          (Println out "-- WARNING: varchar column has no maximum length.  Setting to 1024", "1024")
        else
          (out, maxLength)
      Printf out ("ALTER TABLE " ++ c.row.get "table_name" ++ " ADD COLUMN " ++
        c.row.get "column_name" ++ " " ++ c.row.get "data_type" ++ "(" ++ maxLength ++ ")")
    else
      Printf out ("ALTER TABLE " ++ c.row.get "table_name" ++ " ADD COLUMN " ++
        c.row.get "column_name" ++ " " ++ c.row.get "data_type")
  let out :=
    if c.row.get "is_nullable" = "NO" then
      Printf out " NOT NULL"
    else out
  let out :=
    if c.row.get "column_default" ≠ "null" then
      Printf out (" DEFAULT " ++ c.row.get "column_default")
    else out
  Printf out ";\n"

/-- Method `func (c ColumnSchema) Drop()`: the text written to standard output, after `out`. -/
def ColumnSchema.Drop (c : ColumnSchema) (out : String) : String :=
  Printf out ("ALTER TABLE " ++ c.row.get "table_name" ++ " DROP COLUMN " ++
    c.row.get "column_name" ++ ";\n")

/-! ## Change -/

/-- Lines 80-109 of `Change`: the column type change, mostly the varchar length. -/
def ColumnSchema.changeType (c c2 : ColumnSchema) (out : String) : Except Fatal String := do
  -- Detect column type change (mostly varchar length, or number size increase)
  let out ←
    if c.row.get "data_type" = c2.row.get "data_type" then
      if c.row.get "data_type" = "character varying" then
        if c.row.get "character_maximum_length" ≠ c2.row.get "character_maximum_length" then do
          let max1 := c.row.get "character_maximum_length"
          let max2 := c2.row.get "character_maximum_length"
          let out ←
            if max1 ≠ "null" ∧ max2 ≠ "null" then do
              let cMax ← check out "converting string to int" (Atoi max1)
              let c2Max ← check out "converting string to int" (Atoi max2)
              if cMax < c2Max then
                pure (Println out
                  "-- WARNING: The next statement will shorten a character varying column.")
              else pure out
            else pure out
          let maxLength := c.row.get "character_maximum_length"
          let (out, maxLength) :=
            if maxLength = "null" then
              (Println out "-- WARNING: varchar column has no maximum length.  Setting to 1024",
                "1024")
            else
              (out, maxLength)
          pure (Printf out ("ALTER TABLE " ++ c.row.get "table_name" ++ " ALTER COLUMN " ++
            c.row.get "column_name" ++ " TYPE character varying(" ++ maxLength ++ ");\n"))
        else pure out
      else pure out
    else pure out
  -- TODO: Code and test a column change from integer to bigint
  if c.row.get "data_type" ≠ c2.row.get "data_type" then
    let out := Printf out ("-- WARNING: This type change may not work well: (" ++
      c2.row.get "data_type" ++ " to " ++ c.row.get "data_type" ++ ").\n")
    pure (Printf out ("ALTER TABLE " ++ c.row.get "table_name" ++ " ALTER COLUMN " ++
      c.row.get "column_name" ++ " TYPE " ++ c.row.get "data_type" ++ ";\n"))
  else pure out

/-- Lines 111-118 of `Change`: the column default change. -/
def ColumnSchema.changeDefault (c c2 : ColumnSchema) (out : String) : String :=
  -- Detect column default change (or added, dropped)
  if c.row.get "column_default" = "null" then
    if c.row.get "column_default" ≠ "null" then
      Printf out ("ALTER TABLE " ++ c.row.get "table_name" ++ " ALTER COLUMN " ++
        c.row.get "column_name" ++ " DROP DEFAULT;\n")
    else out
  else if c.row.get "column_default" ≠ c2.row.get "column_default" then
    Printf out ("ALTER TABLE " ++ c.row.get "table_name" ++ " ALTER COLUMN " ++
      c.row.get "column_name" ++ " SET DEFAULT " ++ c.row.get "column_default" ++ ";\n")
  else out

/-- Lines 120-127 of `Change`: the not-null and nullable change. -/
def ColumnSchema.changeNullable (c c2 : ColumnSchema) (out : String) : String :=
  if c.row.get "is_nullable" ≠ c2.row.get "is_nullable" then
    if c.row.get "is_nullable" = "YES" then
      Printf out ("ALTER TABLE " ++ c.row.get "table_name" ++ " ALTER COLUMN " ++
        c.row.get "column_name" ++ " DROP NOT NULL;\n")
    else
      Printf out ("ALTER TABLE " ++ c.row.get "table_name" ++ " ALTER COLUMN " ++
        c.row.get "column_name" ++ " SET NOT NULL;\n")
  else out

/-- Method `func (c ColumnSchema) Change(obj interface{})`, for `obj` a `*ColumnSchema`: the type
change, then the default change, then the nullability change.  `.ok out` is a normal return
with `out` on standard output, `.error f` an aborted run. -/
def ColumnSchema.Change (c c2 : ColumnSchema) (out : String) : Except Fatal String := do
  let out ← c.changeType c2 out
  let out := c.changeDefault c2 out
  let out := c.changeNullable c2 out
  pure out

/-! ## The statements of the default and nullability deltas -/

/-- Spec side: the statement of the default delta of a matched pair, or nothing. -/
def defaultStatement (c c2 : ColumnSchema) : String :=
  if c.row.get "column_default" ≠ "null"
      ∧ c.row.get "column_default" ≠ c2.row.get "column_default" then
    "ALTER TABLE " ++ c.row.get "table_name" ++ " ALTER COLUMN " ++ c.row.get "column_name"
      ++ " SET DEFAULT " ++ c.row.get "column_default" ++ ";\n"
  else ""

/-- Spec side: the statement of the nullability delta of a matched pair, or nothing. -/
def nullableStatement (c c2 : ColumnSchema) : String :=
  if c.row.get "is_nullable" ≠ c2.row.get "is_nullable" then
    if c.row.get "is_nullable" = "YES" then
      "ALTER TABLE " ++ c.row.get "table_name" ++ " ALTER COLUMN " ++ c.row.get "column_name"
        ++ " DROP NOT NULL;\n"
    else
      "ALTER TABLE " ++ c.row.get "table_name" ++ " ALTER COLUMN " ++ c.row.get "column_name"
        ++ " SET NOT NULL;\n"
  else ""

/-! ## Rows of the scenarios -/

/-- The row of the first scenario: `users.email varchar(255) NOT NULL`. -/
def usersEmail : ColumnSchema :=
  { channel := []
    row := [("table_name", "users"), ("column_name", "email"),
            ("data_type", "character varying"), ("is_nullable", "NO"),
            ("column_default", "null"), ("character_maximum_length", "255")]
    done := false }

/-- A row without a length: `users.note varchar`, nullable, no default. -/
def usersNote : ColumnSchema :=
  { channel := []
    row := [("table_name", "users"), ("column_name", "note"),
            ("data_type", "character varying"), ("is_nullable", "YES"),
            ("column_default", "null"), ("character_maximum_length", "null")]
    done := false }

/-- The row of the second scenario: `users.legacy_flag boolean`. -/
def usersLegacyFlag : ColumnSchema :=
  { channel := []
    row := [("table_name", "users"), ("column_name", "legacy_flag"),
            ("data_type", "boolean"), ("is_nullable", "YES"),
            ("column_default", "null"), ("character_maximum_length", "null")]
    done := false }

/-- The rows of the third scenario: `users.bio varchar`, source length 500. -/
def usersBio500 : ColumnSchema :=
  { channel := []
    row := [("table_name", "users"), ("column_name", "bio"),
            ("data_type", "character varying"), ("is_nullable", "YES"),
            ("column_default", "null"), ("character_maximum_length", "500")]
    done := false }

/-- The rows of the third scenario: `users.bio varchar`, target length 1000. -/
def usersBio1000 : ColumnSchema :=
  { channel := []
    row := [("table_name", "users"), ("column_name", "bio"),
            ("data_type", "character varying"), ("is_nullable", "YES"),
            ("column_default", "null"), ("character_maximum_length", "1000")]
    done := false }

/-- The row `users.bio varchar` without a length. -/
def usersBioNoLength : ColumnSchema :=
  { channel := []
    row := [("table_name", "users"), ("column_name", "bio"),
            ("data_type", "character varying"), ("is_nullable", "YES"),
            ("column_default", "null"), ("character_maximum_length", "null")]
    done := false }

/-- The row `orders.qty bigint`. -/
def ordersQtyBigint : ColumnSchema :=
  { channel := []
    row := [("table_name", "orders"), ("column_name", "qty"),
            ("data_type", "bigint"), ("is_nullable", "NO"),
            ("column_default", "null"), ("character_maximum_length", "null")]
    done := false }

/-- The row `orders.qty integer`. -/
def ordersQtyInteger : ColumnSchema :=
  { channel := []
    row := [("table_name", "orders"), ("column_name", "qty"),
            ("data_type", "integer"), ("is_nullable", "NO"),
            ("column_default", "null"), ("character_maximum_length", "null")]
    done := false }

/-- The source row of the fourth scenario: `orders.status` with the default `'pending'`. -/
def ordersStatusPending : ColumnSchema :=
  { channel := []
    row := [("table_name", "orders"), ("column_name", "status"),
            ("data_type", "text"), ("is_nullable", "YES"),
            ("column_default", "'pending'"), ("character_maximum_length", "null")]
    done := false }

/-- The target row of the fourth scenario: `orders.status` without a default. -/
def ordersStatusNoDefault : ColumnSchema :=
  { channel := []
    row := [("table_name", "orders"), ("column_name", "status"),
            ("data_type", "text"), ("is_nullable", "YES"),
            ("column_default", "null"), ("character_maximum_length", "null")]
    done := false }

/-- The target row of the fifth scenario: `orders.qty integer`, nullable. -/
def ordersQtyIntegerNullable : ColumnSchema :=
  { channel := []
    row := [("table_name", "orders"), ("column_name", "qty"),
            ("data_type", "integer"), ("is_nullable", "YES"),
            ("column_default", "null"), ("character_maximum_length", "null")]
    done := false }

/-- The row `users.bio varchar` with a length that is not a number. -/
def usersBioBadLength : ColumnSchema :=
  { channel := []
    row := [("table_name", "users"), ("column_name", "bio"),
            ("data_type", "character varying"), ("is_nullable", "YES"),
            ("column_default", "null"), ("character_maximum_length", "5oo")]
    done := false }

/-- The row `users.bio varchar NOT NULL` with a length that is not a number. -/
def usersBioBadLengthNotNull : ColumnSchema :=
  { channel := []
    row := [("table_name", "users"), ("column_name", "bio"),
            ("data_type", "character varying"), ("is_nullable", "NO"),
            ("column_default", "null"), ("character_maximum_length", "5oo")]
    done := false }

/-- The row `users.bio varchar` with the length written `0500`. -/
def usersBio0500 : ColumnSchema :=
  { channel := []
    row := [("table_name", "users"), ("column_name", "bio"),
            ("data_type", "character varying"), ("is_nullable", "YES"),
            ("column_default", "null"), ("character_maximum_length", "0500")]
    done := false }

/-- The row `orders.qty integer` with a length attribute of 32. -/
def ordersQtyIntegerLength : ColumnSchema :=
  { channel := []
    row := [("table_name", "orders"), ("column_name", "qty"),
            ("data_type", "integer"), ("is_nullable", "NO"),
            ("column_default", "null"), ("character_maximum_length", "32")]
    done := false }

/-- A source row `orders.status text NOT NULL` without a default. -/
def ordersStatusTextNotNull : ColumnSchema :=
  { channel := []
    row := [("table_name", "orders"), ("column_name", "status"),
            ("data_type", "text"), ("is_nullable", "NO"),
            ("column_default", "null"), ("character_maximum_length", "null")]
    done := false }

/-- A source row `orders.status text NOT NULL` with the default `'pending'`. -/
def ordersStatusTextPending : ColumnSchema :=
  { channel := []
    row := [("table_name", "orders"), ("column_name", "status"),
            ("data_type", "text"), ("is_nullable", "NO"),
            ("column_default", "'pending'"), ("character_maximum_length", "null")]
    done := false }

/-- A target row `orders.status integer`, nullable, with the default `0`. -/
def ordersStatusIntegerZero : ColumnSchema :=
  { channel := []
    row := [("table_name", "orders"), ("column_name", "status"),
            ("data_type", "integer"), ("is_nullable", "YES"),
            ("column_default", "0"), ("character_maximum_length", "null")]
    done := false }

/-! ## The text of the type delta, and the pairs on which the run aborts -/

/-- Spec side: the pairs on which `Change` aborts: both sides "character varying", two
different lengths, neither of them "null", and one of them not an integer for `Atoi`. -/
def abortsOn (c c2 : ColumnSchema) : Prop :=
  c.row.get "data_type" = "character varying"
  ∧ c2.row.get "data_type" = "character varying"
  ∧ c.row.get "character_maximum_length" ≠ c2.row.get "character_maximum_length"
  ∧ c.row.get "character_maximum_length" ≠ "null"
  ∧ c2.row.get "character_maximum_length" ≠ "null"
  ∧ (Atoi (c.row.get "character_maximum_length") = none
      ∨ Atoi (c2.row.get "character_maximum_length") = none)

instance abortsOnDecidable (c c2 : ColumnSchema) : Decidable (abortsOn c c2) := by
  unfold abortsOn
  infer_instance

/-- Spec side: the shrink warning line, when both lengths are integers and the source length
is the smaller one. -/
def shrinkWarning (c c2 : ColumnSchema) : String :=
  match Atoi (c.row.get "character_maximum_length"),
        Atoi (c2.row.get "character_maximum_length") with
  | some m1, some m2 =>
    if m1 < m2 then "-- WARNING: The next statement will shorten a character varying column.\n"
    else ""
  | _, _ => ""

/-- Spec side: the warning line of the type delta of a matched pair, or nothing. -/
def typeWarning (c c2 : ColumnSchema) : String :=
  if c.row.get "data_type" ≠ c2.row.get "data_type" then
    "-- WARNING: This type change may not work well: (" ++ c2.row.get "data_type" ++ " to "
      ++ c.row.get "data_type" ++ ").\n"
  else if c.row.get "data_type" = "character varying"
      ∧ c.row.get "character_maximum_length" ≠ c2.row.get "character_maximum_length" then
    if c.row.get "character_maximum_length" = "null" then
      "-- WARNING: varchar column has no maximum length.  Setting to 1024\n"
    else shrinkWarning c c2
  else ""

/-- Spec side: the ALTER COLUMN TYPE statement of the type delta of a matched pair, or
nothing. -/
def typeStatement (c c2 : ColumnSchema) : String :=
  if c.row.get "data_type" ≠ c2.row.get "data_type" then
    "ALTER TABLE " ++ c.row.get "table_name" ++ " ALTER COLUMN " ++ c.row.get "column_name"
      ++ " TYPE " ++ c.row.get "data_type" ++ ";\n"
  else if c.row.get "data_type" = "character varying"
      ∧ c.row.get "character_maximum_length" ≠ c2.row.get "character_maximum_length" then
    "ALTER TABLE " ++ c.row.get "table_name" ++ " ALTER COLUMN " ++ c.row.get "column_name"
      ++ " TYPE character varying("
      ++ (if c.row.get "character_maximum_length" = "null" then "1024"
          else c.row.get "character_maximum_length")
      ++ ");\n"
  else ""

/-! ## The lines of an output -/

/-- Spec side: a text cut at its line breaks.  The last piece is what follows the last line
break; the pieces before it are the lines, without their line break. -/
def segments : List Char → List (List Char)
  | [] => [[]]
  | ch :: rest =>
    if ch = '\n' then [] :: segments rest
    else
      match segments rest with
      | [] => [[ch]]
      | seg :: segs => (ch :: seg) :: segs

/-- Spec side: the lines of an output, each without its line break. -/
def outputLines (s : String) : List (List Char) :=
  (segments s.data).dropLast

/-- Spec side: what an output holds after its last line break. -/
def unterminated (s : String) : List Char :=
  (segments s.data).getLastD []

/-- Spec side: an advisory comment line. -/
def isWarningLine (l : List Char) : Prop :=
  "-- WARNING:".data <+: l

/-- Spec side: a statement line: it starts with `ALTER TABLE ` and ends with `;`. -/
def isStatementLine (l : List Char) : Prop :=
  "ALTER TABLE ".data <+: l ∧ ";".data <:+ l

instance isWarningLineDecidable (l : List Char) : Decidable (isWarningLine l) := by
  unfold isWarningLine
  infer_instance

instance isStatementLineDecidable (l : List Char) : Decidable (isStatementLine l) := by
  unfold isStatementLine
  infer_instance

/-- Spec side: the output contract: every line is a warning line or a statement line, and
the last line is terminated. -/
def WellFormedOutput (s : String) : Prop :=
  unterminated s = [] ∧ ∀ l ∈ outputLines s, isWarningLine l ∨ isStatementLine l

/-- Spec side: a text that is a sequence of terminated lines, each a warning line or a
statement line. -/
def Lined (s : String) : Prop :=
  ∃ ls : List (List Char),
    s.data = (ls.map (fun l => l ++ ['\n'])).flatten
    ∧ ∀ l ∈ ls, '\n' ∉ l ∧ (isWarningLine l ∨ isStatementLine l)

/-- Go `<-c.channel`: the next row of the stream, and the stream after it.  A stream with
nothing left is a closed channel, which delivers the zero value, the empty mapping. -/
def receive (channel : List Row) : Row × List Row :=
  match channel with
  | [] => ([], [])
  | row :: rest => (row, rest)

/-- Method `func (c *ColumnSchema) NextRow() bool`: the cursor after the call, and the value
returned. -/
def ColumnSchema.NextRow (c : ColumnSchema) : ColumnSchema × Bool :=
  let (row, channel) := receive c.channel
  let c : ColumnSchema := { c with row := row, channel := channel }
  let c : ColumnSchema := if c.row.len = 0 then { c with done := true } else c
  (c, !c.done)

/-- The cursor after `n` calls of `NextRow`. -/
def ColumnSchema.afterNextRows (c : ColumnSchema) : Nat → ColumnSchema
  | 0 => c
  | n + 1 => (c.NextRow).1.afterNextRows n

/-! ## Compare and Change on an arbitrary object -/

/-- A Go value handed over as `interface{}`: a `*ColumnSchema`, or a value of another
type. -/
inductive Obj where
  | columnSchema (c2 : ColumnSchema)
  | other

/-- The type assertion `c2, ok := obj.(*ColumnSchema)`: the pointer, nil when the assertion
fails, and the ok flag. -/
def Obj.assertColumnSchema : Obj → Option ColumnSchema × Bool
  | .columnSchema c2 => (some c2, true)
  | .other => (none, false)

/-- How a call ends: it returns a value, the run is aborted by `check`, or the call panics
on a nil pointer dereference.  Each case carries what standard output holds then. -/
inductive Outcome (α : Type) where
  | returned (out : String) (val : α)
  | aborted (f : Fatal)
  | panicked (out : String)

/-- Method `func (c ColumnSchema) Compare(obj interface{}) int` with its type assertion:
when the assertion fails, the message is printed with the nil pointer, and the next
statement reads `c2.row` through that nil pointer. -/
def ColumnSchema.CompareObj (c : ColumnSchema) (obj : Obj) (out : String) : Outcome Int :=
  let (c2, ok) := obj.assertColumnSchema
  let out :=
    if !ok then
      Println out ("Error!!!, change needs a ColumnSchema instance" ++ " " ++ "<nil>")
    else out
  match c2 with
  | none => .panicked out
  | some c2 => .returned out (c.Compare c2)

/-- Method `func (c ColumnSchema) Change(obj interface{})` with its type assertion: when the
assertion fails, the message is printed with the nil pointer, and the next statement reads
`c2.row` through that nil pointer. -/
def ColumnSchema.ChangeObj (c : ColumnSchema) (obj : Obj) (out : String) : Outcome Unit :=
  let (c2, ok) := obj.assertColumnSchema
  let out :=
    if !ok then
      Println out
        ("Error!!!, ColumnSchema.Change(obj) needs a ColumnSchema instance" ++ " " ++ "<nil>")
    else out
  match c2 with
  | none => .panicked out
  | some c2 =>
    match c.Change c2 out with
    | .ok out => .returned out ()
    | .error f => .aborted f

/-! ## The merge driver -/

/-- One invocation made by the merge driver, with the current rows it is made on. -/
inductive Call where
  | add (row : Row)
  | drop (row : Row)
  | change (source target : Row)
  deriving DecidableEq

/-- What a run of the merge driver has done so far: its invocations, in order, and the text
on standard output. -/
structure Trace where
  calls : List Call
  out : String

/-- Modelled from the spec: `doDiff`, the merge driver, is called by `compareColumns` but
defined outside column.go.  This is the transition rule of section 4.2 of the spec, run on
the two cursors until both are done: a done source gives Drop and advances the target, a
done target gives Add and advances the source, otherwise `Compare` decides between Add
(negative), Drop (positive) and Change with both cursors advanced (zero).  A Change that
aborts ends the run.  `fuel` bounds the number of steps; `none` is a run that needs more. -/
def doDiffLoop : Nat → ColumnSchema → ColumnSchema → Trace → Except Fatal (Option Trace)
  | 0, _, _, _ => .ok none
  | fuel + 1, a, b, tr =>
    if a.done ∧ b.done then .ok (some tr)
    else if a.done then
      doDiffLoop fuel a (b.NextRow).1
        { calls := tr.calls ++ [.drop b.row], out := b.Drop tr.out }
    else if b.done then
      doDiffLoop fuel (a.NextRow).1 b
        { calls := tr.calls ++ [.add a.row], out := a.Add tr.out }
    else
      let val := a.Compare b
      if val < 0 then
        doDiffLoop fuel (a.NextRow).1 b
          { calls := tr.calls ++ [.add a.row], out := a.Add tr.out }
      else if val > 0 then
        doDiffLoop fuel a (b.NextRow).1
          { calls := tr.calls ++ [.drop b.row], out := b.Drop tr.out }
      else
        match a.Change b tr.out with
        | .error f => .error f
        | .ok out =>
          doDiffLoop fuel (a.NextRow).1 (b.NextRow).1
            { calls := tr.calls ++ [.change a.row b.row], out := out }

/-- Modelled from the spec: `doDiff` starts with both cursors moved to their first row, and
needs at most one step for each row of the two streams and one more. -/
def doDiff (a b : ColumnSchema) : Except Fatal (Option Trace) :=
  doDiffLoop (a.channel.length + b.channel.length + 1) (a.NextRow).1 (b.NextRow).1
    { calls := [], out := "" }

/-- Function `compareColumns` (lines 133-155), given the two row streams that
`pgutil.QueryStrings` delivers for the two connections: a cursor on each, then `doDiff`. -/
def compareColumns (rowChan1 rowChan2 : List Row) : Except Fatal (Option Trace) :=
  doDiff { channel := rowChan1, row := [], done := false }
    { channel := rowChan2, row := [], done := false }

/-- Spec side: the comparison of two rows by key, as `Compare` makes it. -/
def keyCompare (x y : Row) : Int :=
  ColumnSchema.Compare { channel := [], row := x, done := false }
    { channel := [], row := y, done := false }

/-- Spec side: the pair of rows is one on which `Change` aborts. -/
def rowsAbort (x y : Row) : Prop :=
  abortsOn { channel := [], row := x, done := false } { channel := [], row := y, done := false }

/-- Spec side: the row of an Add invocation. -/
def Call.addRow : Call → Option Row
  | .add row => some row
  | _ => none

/-- Spec side: the row of a Drop invocation. -/
def Call.dropRow : Call → Option Row
  | .drop row => some row
  | _ => none

/-- Spec side: the rows of a Change invocation. -/
def Call.changeRows : Call → Option (Row × Row)
  | .change source target => some (source, target)
  | _ => none

/-- Spec side: no row of `rows` has the key of `x`. -/
def keyAbsent (rows : List Row) (x : Row) : Bool :=
  rows.all (fun y => decide (keyCompare x y ≠ 0))

/-- Spec side: the row of `rows` that has the key of `x`, if there is one. -/
def keyMatch (rows : List Row) (x : Row) : Option Row :=
  rows.find? (fun y => decide (keyCompare x y = 0))

/-- Spec side: the cursor of a stream `rows` followed by the empty row, once it stands on
the first row of `rows`, or is done when `rows` is empty. -/
def cursorAt : List Row → ColumnSchema
  | [] => { channel := [], row := [], done := true }
  | row :: rest => { channel := rest ++ [[]], row := row, done := false }

instance rowsAbortDecidable (x y : Row) : Decidable (rowsAbort x y) := by
  unfold rowsAbort
  infer_instance

/-! ## Facts about the helpers -/

theorem compareString_values (s1 s2 : String) :
    _compareString s1 s2 = -1 ∨ _compareString s1 s2 = 0 ∨ _compareString s1 s2 = 1 := by
  unfold _compareString
  split_ifs <;> simp

theorem compareString_eq_zero_iff (s1 s2 : String) :
    _compareString s1 s2 = 0 ↔ s1 = s2 := by
  unfold _compareString
  split_ifs <;> simp_all

theorem changeDefault_eq (c c2 : ColumnSchema) (out : String) :
    c.changeDefault c2 out = out ++ defaultStatement c c2 := by
  unfold ColumnSchema.changeDefault defaultStatement Printf
  split_ifs <;> first | rfl | (exfalso; tauto) | simp

theorem changeNullable_eq (c c2 : ColumnSchema) (out : String) :
    c.changeNullable c2 out = out ++ nullableStatement c c2 := by
  unfold ColumnSchema.changeNullable nullableStatement Printf
  split_ifs <;> first | rfl | (exfalso; tauto) | simp

theorem change_of_changeType (c c2 : ColumnSchema) (out o : String)
    (h : c.changeType c2 out = .ok o) :
    c.Change c2 out = .ok (o ++ defaultStatement c c2 ++ nullableStatement c c2) := by
  unfold ColumnSchema.Change
  rw [h, ← changeNullable_eq, ← changeDefault_eq]
  rfl

theorem atoi_null : Atoi "null" = none := by rfl

theorem string_append_left_cancel {a b d : String} (h : a ++ b = a ++ d) : b = d := by
  have hdata := congrArg String.data h
  simp only [String.data_append] at hdata
  exact String.ext (List.append_cancel_left hdata)

/-- What `changeType` reads of the target row is its data_type and its length. -/
theorem changeType_congr (c c2 c3 : ColumnSchema) (out : String)
    (hty : c3.row.get "data_type" = c2.row.get "data_type")
    (hlen : c3.row.get "character_maximum_length" = c2.row.get "character_maximum_length") :
    c.changeType c3 out = c.changeType c2 out := by
  unfold ColumnSchema.changeType
  rw [hty, hlen]

/-- The text of a SET DEFAULT statement is never the text of a DROP DEFAULT statement. -/
theorem setDefault_ne_dropDefault (out t col d : String) :
    out ++ ("ALTER TABLE " ++ t ++ " ALTER COLUMN " ++ col ++ " SET DEFAULT " ++ d ++ ";\n")
      ≠ out ++ ("ALTER TABLE " ++ t ++ " ALTER COLUMN " ++ col ++ " DROP DEFAULT;\n") := by
  intro h
  simp only [String.append_assoc] at h
  have h1 := string_append_left_cancel (string_append_left_cancel (string_append_left_cancel
    (string_append_left_cancel (string_append_left_cancel h))))
  have h2 : (' ' :: 'S' :: ("ET DEFAULT " ++ (d ++ ";\n")).data)
      = (' ' :: 'D' :: "ROP DEFAULT;\n".data) := congrArg String.data h1
  simp at h2

/-- Writing no text is not writing a DROP DEFAULT statement. -/
theorem nothing_ne_dropDefault (out t col : String) :
    out ≠ out ++ ("ALTER TABLE " ++ t ++ " ALTER COLUMN " ++ col ++ " DROP DEFAULT;\n") := by
  intro h
  have h0 : out ++ ""
      = out ++ ("ALTER TABLE " ++ t ++ " ALTER COLUMN " ++ col ++ " DROP DEFAULT;\n") := by
    rw [String.append_empty]
    exact h
  simp only [String.append_assoc] at h0
  have h2 : ([] : List Char)
      = 'A' :: ("LTER TABLE " ++ (t ++ (" ALTER COLUMN " ++ (col ++ " DROP DEFAULT;\n")))).data :=
    congrArg String.data (string_append_left_cancel h0)
  simp at h2

/-! ## Compare: the key order -/

/-- C1: `Compare` is the lexicographic comparison of (table_name, column_name): the
comparison of the table names when that is non-zero, otherwise the comparison of the column
names; its value is -1, 0 or 1; it is 0 exactly when both key fields are equal; and it is -1
or 1 on every pair of distinct keys. -/
theorem compare_lexicographic (a b : ColumnSchema) :
    (a.Compare b =
        if _compareString (a.row.get "table_name") (b.row.get "table_name") ≠ 0
        then _compareString (a.row.get "table_name") (b.row.get "table_name")
        else _compareString (a.row.get "column_name") (b.row.get "column_name"))
    ∧ (a.Compare b = -1 ∨ a.Compare b = 0 ∨ a.Compare b = 1)
    ∧ (a.Compare b = 0 ↔
        (a.row.get "table_name" = b.row.get "table_name"
          ∧ a.row.get "column_name" = b.row.get "column_name"))
    ∧ (¬ (a.row.get "table_name" = b.row.get "table_name"
          ∧ a.row.get "column_name" = b.row.get "column_name") →
        (a.Compare b = -1 ∨ a.Compare b = 1)) := by
  have hval : a.Compare b = -1 ∨ a.Compare b = 0 ∨ a.Compare b = 1 := by
    unfold ColumnSchema.Compare
    simp only []
    split_ifs
    · exact compareString_values _ _
    · exact compareString_values _ _
  have hzero : a.Compare b = 0 ↔
      (a.row.get "table_name" = b.row.get "table_name"
        ∧ a.row.get "column_name" = b.row.get "column_name") := by
    unfold ColumnSchema.Compare
    simp only []
    split_ifs with h
    · constructor
      · intro h0; exact absurd h0 h
      · rintro ⟨ht, _⟩
        exact absurd ((compareString_eq_zero_iff _ _).2 ht) h
    · have ht := (compareString_eq_zero_iff _ _).1 (not_not.1 h)
      rw [compareString_eq_zero_iff]
      exact ⟨fun hc => ⟨ht, hc⟩, fun hc => hc.2⟩
  refine ⟨?_, hval, hzero, ?_⟩
  · unfold ColumnSchema.Compare
    simp only []
  · intro hne
    rcases hval with h | h | h
    · exact Or.inl h
    · exact absurd (hzero.1 h) hne
    · exact Or.inr h

/-! ## Add and Drop: the emitted text -/

/-- C2: for every row `Add` writes one statement
`ALTER TABLE <table_name> ADD COLUMN <column_name> <data_type>[(<length>)][ NOT NULL][ DEFAULT <column_default>];`
and a line break; the length part is there exactly when data_type is "character varying",
` NOT NULL` exactly when is_nullable is "NO", the default part exactly when column_default is
not "null".  The only other text is the advisory comment line of a varchar row without a
length, whose length is then 1024.  For `users.email` the output is exactly
`ALTER TABLE users ADD COLUMN email character varying(255) NOT NULL;`. -/
theorem add_statement_form (c : ColumnSchema) (out : String) :
    c.Add out =
        out
        ++ (if c.row.get "data_type" = "character varying"
              ∧ c.row.get "character_maximum_length" = "null"
            then "-- WARNING: varchar column has no maximum length.  Setting to 1024\n" else "")
        ++ ("ALTER TABLE " ++ c.row.get "table_name" ++ " ADD COLUMN " ++ c.row.get "column_name"
            ++ " " ++ c.row.get "data_type"
            ++ (if c.row.get "data_type" = "character varying"
                then "(" ++ (if c.row.get "character_maximum_length" = "null" then "1024"
                             else c.row.get "character_maximum_length") ++ ")"
                else "")
            ++ (if c.row.get "is_nullable" = "NO" then " NOT NULL" else "")
            ++ (if c.row.get "column_default" ≠ "null"
                then " DEFAULT " ++ c.row.get "column_default" else "")
            ++ ";\n")
    ∧ usersEmail.Add "" =
        "ALTER TABLE users ADD COLUMN email character varying(255) NOT NULL;\n" := by
  refine ⟨?_, by decide⟩
  unfold ColumnSchema.Add Printf Println
  by_cases h1 : c.row.get "data_type" = "character varying" <;>
  by_cases h2 : c.row.get "character_maximum_length" = "null" <;>
  by_cases h3 : c.row.get "is_nullable" = "NO" <;>
  by_cases h4 : c.row.get "column_default" = "null" <;>
  simp only [h1, h2, h3, h4, if_true, if_false, and_self, and_true, and_false, ne_eq,
    not_true_eq_false, not_false_eq_true, String.append_assoc, String.append_empty,
    String.empty_append] <;>
  rfl

/-- C3: on a "character varying" row whose length is the marker "null", `Add` returns its
text (it cannot fail): first the `-- WARNING:` comment line, then the ADD COLUMN statement
with the length 1024.  On a row whose length is not "null" there is no warning line, and the
length written, if any, is the row's own. -/
theorem add_null_length_fallback (c : ColumnSchema) (out : String) :
    (c.row.get "data_type" = "character varying" →
      c.row.get "character_maximum_length" = "null" →
      c.Add out =
        out ++ "-- WARNING: varchar column has no maximum length.  Setting to 1024\n"
        ++ ("ALTER TABLE " ++ c.row.get "table_name" ++ " ADD COLUMN "
            ++ c.row.get "column_name" ++ " character varying(1024)"
            ++ (if c.row.get "is_nullable" = "NO" then " NOT NULL" else "")
            ++ (if c.row.get "column_default" ≠ "null"
                then " DEFAULT " ++ c.row.get "column_default" else "")
            ++ ";\n"))
    ∧ (c.row.get "character_maximum_length" ≠ "null" →
      c.Add out =
        out
        ++ ("ALTER TABLE " ++ c.row.get "table_name" ++ " ADD COLUMN "
            ++ c.row.get "column_name" ++ " " ++ c.row.get "data_type"
            ++ (if c.row.get "data_type" = "character varying"
                then "(" ++ c.row.get "character_maximum_length" ++ ")" else "")
            ++ (if c.row.get "is_nullable" = "NO" then " NOT NULL" else "")
            ++ (if c.row.get "column_default" ≠ "null"
                then " DEFAULT " ++ c.row.get "column_default" else "")
            ++ ";\n")) := by
  constructor
  · intro h1 h2
    unfold ColumnSchema.Add Printf Println
    by_cases h3 : c.row.get "is_nullable" = "NO" <;>
    by_cases h4 : c.row.get "column_default" = "null" <;>
    simp only [h1, h2, h3, h4, if_true, if_false, ne_eq, not_true_eq_false,
      not_false_eq_true, String.append_assoc, String.append_empty, String.empty_append] <;>
    rfl
  · intro h2
    unfold ColumnSchema.Add Printf Println
    by_cases h1 : c.row.get "data_type" = "character varying" <;>
    by_cases h3 : c.row.get "is_nullable" = "NO" <;>
    by_cases h4 : c.row.get "column_default" = "null" <;>
    simp only [h1, h2, h3, h4, if_true, if_false, ne_eq, not_true_eq_false,
      not_false_eq_true, String.append_assoc, String.append_empty, String.empty_append]

/-- The fallback of C3 on `users.note` (no length) and the plain case on `users.email`. -/
theorem add_null_length_fallback_witness :
    usersNote.Add "" =
        "-- WARNING: varchar column has no maximum length.  Setting to 1024\nALTER TABLE users ADD COLUMN note character varying(1024);\n"
    ∧ usersEmail.Add "" =
        "ALTER TABLE users ADD COLUMN email character varying(255) NOT NULL;\n" :=
  ⟨(add_null_length_fallback usersNote "").1 rfl rfl,
   (add_null_length_fallback usersEmail "").2 (by decide)⟩

/-- C4: for every row `Drop` writes the single line
`ALTER TABLE <table_name> DROP COLUMN <column_name>;` and nothing else, so no warning
comment; two rows with the same table_name and column_name give the same output, whatever
their other attributes.  For `users.legacy_flag` the output is exactly
`ALTER TABLE users DROP COLUMN legacy_flag;`. -/
theorem drop_statement (c : ColumnSchema) (out : String) :
    c.Drop out =
        out ++ ("ALTER TABLE " ++ c.row.get "table_name" ++ " DROP COLUMN "
                ++ c.row.get "column_name" ++ ";\n")
    ∧ (∀ c2 : ColumnSchema,
        c2.row.get "table_name" = c.row.get "table_name" →
        c2.row.get "column_name" = c.row.get "column_name" →
        c2.Drop out = c.Drop out)
    ∧ usersLegacyFlag.Drop "" = "ALTER TABLE users DROP COLUMN legacy_flag;\n" := by
  refine ⟨rfl, ?_, by decide⟩
  intro c2 ht hc
  unfold ColumnSchema.Drop
  rw [ht, hc]

/-! ## Change: the emitted text -/

/-- C5: `Change` on two rows with the same data_type, is_nullable, column_default and
character_maximum_length, in particular on a row and itself, returns normally and writes
nothing. -/
theorem change_identical_rows (c c2 : ColumnSchema) (out : String)
    (hty : c.row.get "data_type" = c2.row.get "data_type")
    (hnull : c.row.get "is_nullable" = c2.row.get "is_nullable")
    (hdef : c.row.get "column_default" = c2.row.get "column_default")
    (hlen : c.row.get "character_maximum_length" = c2.row.get "character_maximum_length") :
    c.Change c2 out = .ok out ∧ c.Change c out = .ok out := by
  have key : ∀ d : ColumnSchema,
      c.row.get "data_type" = d.row.get "data_type" →
      c.row.get "is_nullable" = d.row.get "is_nullable" →
      c.row.get "column_default" = d.row.get "column_default" →
      c.row.get "character_maximum_length" = d.row.get "character_maximum_length" →
      c.Change d out = .ok out := by
    intro d h1 h2 h3 h4
    have ht : c.changeType d out = .ok out := by
      unfold ColumnSchema.changeType
      simp [← h1, ← h4]
      rfl
    rw [change_of_changeType c d out out ht]
    simp [defaultStatement, nullableStatement, ← h2, ← h3]
  exact ⟨key c2 hty hnull hdef hlen, key c rfl rfl rfl rfl⟩

/-- C5 on `users.email` against itself. -/
theorem change_identical_rows_witness :
    usersEmail.Change usersEmail "" = .ok "" :=
  (change_identical_rows usersEmail usersEmail "" rfl rfl rfl rfl).1

theorem changeType_varchar_lengths (c c2 : ColumnSchema) (out : String) (m1 m2 : Int)
    (hty : c.row.get "data_type" = "character varying")
    (hty2 : c2.row.get "data_type" = "character varying")
    (h1 : Atoi (c.row.get "character_maximum_length") = some m1)
    (h2 : Atoi (c2.row.get "character_maximum_length") = some m2)
    (hd : c.row.get "character_maximum_length" ≠ c2.row.get "character_maximum_length") :
    c.changeType c2 out =
      .ok (out
        ++ (if m1 < m2
            then "-- WARNING: The next statement will shorten a character varying column.\n"
            else "")
        ++ ("ALTER TABLE " ++ c.row.get "table_name" ++ " ALTER COLUMN "
            ++ c.row.get "column_name" ++ " TYPE character varying("
            ++ c.row.get "character_maximum_length" ++ ");\n")) := by
  have hn1 : c.row.get "character_maximum_length" ≠ "null" := by
    intro h; rw [h, atoi_null] at h1; exact Option.noConfusion h1
  have hn2 : c2.row.get "character_maximum_length" ≠ "null" := by
    intro h; rw [h, atoi_null] at h2; exact Option.noConfusion h2
  unfold ColumnSchema.changeType
  simp only [hty, hty2, hd, hn1, hn2, h1, h2, check, ne_eq, not_true_eq_false,
    not_false_eq_true, and_self, if_true, if_false, bind, Except.bind, pure, Except.pure,
    Printf, Println]
  split_ifs
  · simp only [String.append_assoc]
    rfl
  · simp only [String.append_empty]

/-- C6: on a matched pair of "character varying" columns whose lengths both parse as
integers (so neither is "null"), `Change` writes, when the source length is below the target
length, the shrink warning line and right after it
`ALTER TABLE <table_name> ALTER COLUMN <column_name> TYPE character varying(<source length>);`
and, when the source length is above the target length, the same statement without the
warning; the default and nullability statements, if any, follow. -/
theorem change_varchar_length (c c2 : ColumnSchema) (out : String) (m1 m2 : Int)
    (hty : c.row.get "data_type" = "character varying")
    (hty2 : c2.row.get "data_type" = "character varying")
    (h1 : Atoi (c.row.get "character_maximum_length") = some m1)
    (h2 : Atoi (c2.row.get "character_maximum_length") = some m2) :
    (m1 < m2 →
      c.Change c2 out =
        .ok (out
          ++ "-- WARNING: The next statement will shorten a character varying column.\n"
          ++ ("ALTER TABLE " ++ c.row.get "table_name" ++ " ALTER COLUMN "
              ++ c.row.get "column_name" ++ " TYPE character varying("
              ++ c.row.get "character_maximum_length" ++ ");\n")
          ++ defaultStatement c c2 ++ nullableStatement c c2))
    ∧ (m2 < m1 →
      c.Change c2 out =
        .ok (out
          ++ ("ALTER TABLE " ++ c.row.get "table_name" ++ " ALTER COLUMN "
              ++ c.row.get "column_name" ++ " TYPE character varying("
              ++ c.row.get "character_maximum_length" ++ ");\n")
          ++ defaultStatement c c2 ++ nullableStatement c c2)) := by
  have hd : m1 ≠ m2 →
      c.row.get "character_maximum_length" ≠ c2.row.get "character_maximum_length" := by
    intro hne h
    rw [h, h2] at h1
    exact hne (Option.some.inj h1).symm
  constructor
  · intro hlt
    have ht := changeType_varchar_lengths c c2 out m1 m2 hty hty2 h1 h2 (hd (ne_of_lt hlt))
    rw [if_pos hlt] at ht
    exact change_of_changeType c c2 out _ ht
  · intro hgt
    have ht := changeType_varchar_lengths c c2 out m1 m2 hty hty2 h1 h2 (hd (ne_of_gt hgt))
    rw [if_neg (not_lt.2 (le_of_lt hgt)), String.append_empty] at ht
    exact change_of_changeType c c2 out _ ht

/-- The third scenario: `users.bio`, source length 500, target length 1000, and the same
pair the other way round. -/
theorem change_varchar_length_witness :
    usersBio500.Change usersBio1000 "" =
        .ok "-- WARNING: The next statement will shorten a character varying column.\nALTER TABLE users ALTER COLUMN bio TYPE character varying(500);\n"
    ∧ usersBio1000.Change usersBio500 "" =
        .ok "ALTER TABLE users ALTER COLUMN bio TYPE character varying(1000);\n" :=
  ⟨(change_varchar_length usersBio500 usersBio1000 "" 500 1000 rfl rfl rfl rfl).1 (by decide),
   (change_varchar_length usersBio1000 usersBio500 "" 1000 500 rfl rfl rfl rfl).2 (by decide)⟩

theorem changeType_varchar_null_length (c c2 : ColumnSchema) (out : String)
    (hty : c.row.get "data_type" = "character varying")
    (hty2 : c2.row.get "data_type" = "character varying")
    (hd : c.row.get "character_maximum_length" ≠ c2.row.get "character_maximum_length")
    (hnull : c.row.get "character_maximum_length" = "null"
              ∨ c2.row.get "character_maximum_length" = "null") :
    c.changeType c2 out =
      .ok (out
        ++ (if c.row.get "character_maximum_length" = "null"
            then "-- WARNING: varchar column has no maximum length.  Setting to 1024\n"
            else "")
        ++ ("ALTER TABLE " ++ c.row.get "table_name" ++ " ALTER COLUMN "
            ++ c.row.get "column_name" ++ " TYPE character varying("
            ++ (if c.row.get "character_maximum_length" = "null" then "1024"
                else c.row.get "character_maximum_length")
            ++ ");\n")) := by
  unfold ColumnSchema.changeType
  by_cases hn1 : c.row.get "character_maximum_length" = "null"
  · have hd2 : ¬ "null" = c2.row.get "character_maximum_length" := hn1 ▸ hd
    simp only [hty, hty2, hn1, hd2, ne_eq, not_true_eq_false, not_false_eq_true, false_and,
      if_true, if_false, bind, Except.bind, pure, Except.pure, Printf, Println,
      String.append_assoc]
    rfl
  · have hn2 : c2.row.get "character_maximum_length" = "null" := hnull.resolve_left hn1
    simp only [hty, hty2, hd, hn1, hn2, ne_eq, not_true_eq_false, not_false_eq_true, and_false,
      if_true, if_false, bind, Except.bind, pure, Except.pure, Printf, Println,
      String.append_assoc, String.append_empty]

/-- C7, counterexample: `users.bio`, both sides "character varying", source length 500 and
target length "null".  The lengths differ and one of them is "null", yet `Change` writes
neither the warning nor the length 1024: it writes the statement with the source length. -/
theorem change_null_target_length_counterexample :
    usersBio500.row.get "data_type" = "character varying"
    ∧ usersBioNoLength.row.get "data_type" = "character varying"
    ∧ usersBio500.row.get "character_maximum_length"
        ≠ usersBioNoLength.row.get "character_maximum_length"
    ∧ (usersBio500.row.get "character_maximum_length" = "null"
        ∨ usersBioNoLength.row.get "character_maximum_length" = "null")
    ∧ usersBio500.Change usersBioNoLength "" =
        .ok "ALTER TABLE users ALTER COLUMN bio TYPE character varying(500);\n"
    ∧ usersBio500.Change usersBioNoLength "" ≠
        .ok "-- WARNING: varchar column has no maximum length.  Setting to 1024\nALTER TABLE users ALTER COLUMN bio TYPE character varying(1024);\n" := by
  refine ⟨by decide, by decide, by decide, by decide, rfl, ?_⟩
  intro h
  have h' : usersBio500.Change usersBioNoLength "" =
      .ok "ALTER TABLE users ALTER COLUMN bio TYPE character varying(500);\n" := rfl
  rw [h'] at h
  exact absurd (Except.ok.inj h) (by decide)

/-- C7, amended: on a matched pair of "character varying" columns whose lengths differ,
`Change` falls back to the 1024 rule of `Add` when the source length is "null": it writes
the no-maximum-length warning line and then the TYPE statement with the length 1024.  When
only the target length is "null", it writes the TYPE statement with the source length and no
warning.  The default and nullability statements, if any, follow. -/
theorem change_null_length (c c2 : ColumnSchema) (out : String)
    (hty : c.row.get "data_type" = "character varying")
    (hty2 : c2.row.get "data_type" = "character varying")
    (hd : c.row.get "character_maximum_length" ≠ c2.row.get "character_maximum_length") :
    (c.row.get "character_maximum_length" = "null" →
      c.Change c2 out =
        .ok (out
          ++ "-- WARNING: varchar column has no maximum length.  Setting to 1024\n"
          ++ ("ALTER TABLE " ++ c.row.get "table_name" ++ " ALTER COLUMN "
              ++ c.row.get "column_name" ++ " TYPE character varying(1024);\n")
          ++ defaultStatement c c2 ++ nullableStatement c c2))
    ∧ (c.row.get "character_maximum_length" ≠ "null" →
      c2.row.get "character_maximum_length" = "null" →
      c.Change c2 out =
        .ok (out
          ++ ("ALTER TABLE " ++ c.row.get "table_name" ++ " ALTER COLUMN "
              ++ c.row.get "column_name" ++ " TYPE character varying("
              ++ c.row.get "character_maximum_length" ++ ");\n")
          ++ defaultStatement c c2 ++ nullableStatement c c2)) := by
  constructor
  · intro hn1
    have ht := changeType_varchar_null_length c c2 out hty hty2 hd (Or.inl hn1)
    rw [if_pos hn1, if_pos hn1] at ht
    rw [change_of_changeType c c2 out _ ht]
    simp only [String.append_assoc]
    rfl
  · intro hn1 hn2
    have ht := changeType_varchar_null_length c c2 out hty hty2 hd (Or.inr hn2)
    rw [if_neg hn1, if_neg hn1, String.append_empty] at ht
    exact change_of_changeType c c2 out _ ht

/-- C7 amended, on `users.bio`: source without a length against target length 500, and
source length 500 against target without a length. -/
theorem change_null_length_witness :
    usersBioNoLength.Change usersBio500 "" =
        .ok "-- WARNING: varchar column has no maximum length.  Setting to 1024\nALTER TABLE users ALTER COLUMN bio TYPE character varying(1024);\n"
    ∧ usersBio500.Change usersBioNoLength "" =
        .ok "ALTER TABLE users ALTER COLUMN bio TYPE character varying(500);\n" :=
  ⟨(change_null_length usersBioNoLength usersBio500 "" rfl rfl (by decide)).1 rfl,
   (change_null_length usersBio500 usersBioNoLength "" rfl rfl (by decide)).2
      (by decide) rfl⟩

theorem changeType_type_differs (c c2 : ColumnSchema) (out : String)
    (hd : c.row.get "data_type" ≠ c2.row.get "data_type") :
    c.changeType c2 out =
      .ok (out
        ++ ("-- WARNING: This type change may not work well: (" ++ c2.row.get "data_type"
            ++ " to " ++ c.row.get "data_type" ++ ").\n")
        ++ ("ALTER TABLE " ++ c.row.get "table_name" ++ " ALTER COLUMN "
            ++ c.row.get "column_name" ++ " TYPE " ++ c.row.get "data_type" ++ ";\n")) := by
  unfold ColumnSchema.changeType
  simp only [hd, ne_eq, not_false_eq_true, if_true, if_false, bind, Except.bind, pure,
    Except.pure, Printf]

/-- C8: on a matched pair whose data_type values differ, `Change` returns normally and its
output starts with the line
`-- WARNING: This type change may not work well: (<target data_type> to <source data_type>).`
followed by `ALTER TABLE <table_name> ALTER COLUMN <column_name> TYPE <source data_type>;`,
whatever the types and lengths; only the default and nullability statements, if any, follow,
so no TYPE statement with a length is written. -/
theorem change_type_differs (c c2 : ColumnSchema) (out : String)
    (hd : c.row.get "data_type" ≠ c2.row.get "data_type") :
    c.Change c2 out =
      .ok (out
        ++ ("-- WARNING: This type change may not work well: (" ++ c2.row.get "data_type"
            ++ " to " ++ c.row.get "data_type" ++ ").\n")
        ++ ("ALTER TABLE " ++ c.row.get "table_name" ++ " ALTER COLUMN "
            ++ c.row.get "column_name" ++ " TYPE " ++ c.row.get "data_type" ++ ";\n")
        ++ defaultStatement c c2 ++ nullableStatement c c2) :=
  change_of_changeType c c2 out _ (changeType_type_differs c c2 out hd)

/-- C8 on `orders.qty`, source bigint and target integer, and on `users.bio`, source
varchar(500) and target integer. -/
theorem change_type_differs_witness :
    ordersQtyBigint.Change ordersQtyInteger "" =
        .ok "-- WARNING: This type change may not work well: (integer to bigint).\nALTER TABLE orders ALTER COLUMN qty TYPE bigint;\n"
    ∧ usersBio500.Change ordersQtyInteger "" =
        .ok "-- WARNING: This type change may not work well: (integer to character varying).\nALTER TABLE users ALTER COLUMN bio TYPE character varying;\nALTER TABLE users ALTER COLUMN bio DROP NOT NULL;\n" :=
  ⟨change_type_differs ordersQtyBigint ordersQtyInteger "" (by decide),
   change_type_differs usersBio500 ordersQtyInteger "" (by decide)⟩

/-- C9: the default part of `Change` (lines 111-118, run after the type part and before the
nullability part) appends
`ALTER TABLE <table_name> ALTER COLUMN <column_name> SET DEFAULT <source column_default>;`
exactly when the source column_default is not "null" and differs from the target
column_default, and appends nothing otherwise.  So when the source column_default is "null",
two target rows that differ only in column_default give the same result of `Change`, and
what the default part appends is never a DROP DEFAULT statement. -/
theorem change_default_delta (c c2 : ColumnSchema) (out : String) :
    c.changeDefault c2 out =
        out ++ (if c.row.get "column_default" ≠ "null"
                    ∧ c.row.get "column_default" ≠ c2.row.get "column_default"
                then "ALTER TABLE " ++ c.row.get "table_name" ++ " ALTER COLUMN "
                      ++ c.row.get "column_name" ++ " SET DEFAULT "
                      ++ c.row.get "column_default" ++ ";\n"
                else "")
    ∧ c.Change c2 out =
        (c.changeType c2 out).map (fun o => c.changeNullable c2 (c.changeDefault c2 o))
    ∧ (c.row.get "column_default" = "null" →
        ∀ c3 : ColumnSchema,
          c3.row.get "data_type" = c2.row.get "data_type" →
          c3.row.get "character_maximum_length" = c2.row.get "character_maximum_length" →
          c3.row.get "is_nullable" = c2.row.get "is_nullable" →
          c.Change c3 out = c.Change c2 out)
    ∧ c.changeDefault c2 out ≠
        out ++ ("ALTER TABLE " ++ c.row.get "table_name" ++ " ALTER COLUMN "
                ++ c.row.get "column_name" ++ " DROP DEFAULT;\n") := by
  refine ⟨changeDefault_eq c c2 out, ?_, ?_, ?_⟩
  · unfold ColumnSchema.Change
    cases c.changeType c2 out <;> rfl
  · intro hnull c3 hty hlen hnn
    unfold ColumnSchema.Change
    rw [changeType_congr c c2 c3 out hty hlen]
    cases c.changeType c2 out with
    | error e => rfl
    | ok o =>
      have hd3 : c.changeDefault c3 o = c.changeDefault c2 o := by
        unfold ColumnSchema.changeDefault
        simp only [hnull, ne_eq, not_true_eq_false, if_true, if_false]
      have hn3 : ∀ x, c.changeNullable c3 x = c.changeNullable c2 x := by
        intro x
        unfold ColumnSchema.changeNullable
        rw [hnn]
      simp only [bind, Except.bind, pure, Except.pure, hd3, hn3]
  · rw [changeDefault_eq]
    unfold defaultStatement
    split_ifs
    · exact setDefault_ne_dropDefault _ _ _ _
    · rw [String.append_empty]
      exact nothing_ne_dropDefault _ _ _

/-- C9 on `orders.status` as source without a default: the target default does not matter. -/
theorem change_default_delta_witness :
    ordersStatusNoDefault.Change ordersStatusPending ""
      = ordersStatusNoDefault.Change ordersStatusNoDefault "" :=
  (change_default_delta ordersStatusNoDefault ordersStatusNoDefault "").2.2.1 rfl
    ordersStatusPending rfl rfl rfl

/-- C10, counterexample: `orders.status`, source default `'pending'`, target default "null",
every other attribute equal.  `Change` does write a statement: the SET DEFAULT. -/
theorem change_default_pending_counterexample :
    ordersStatusPending.Change ordersStatusNoDefault "" =
        .ok "ALTER TABLE orders ALTER COLUMN status SET DEFAULT 'pending';\n"
    ∧ ordersStatusPending.Change ordersStatusNoDefault "" ≠ .ok "" := by
  have h : ordersStatusPending.Change ordersStatusNoDefault "" =
      .ok "ALTER TABLE orders ALTER COLUMN status SET DEFAULT 'pending';\n" := rfl
  refine ⟨h, ?_⟩
  rw [h]
  intro he
  exact absurd (Except.ok.inj he) (by decide)

/-- C10, amended: for the matched pair `orders.status` whose source column_default is
`'pending'`, whose target column_default is "null" and whose other attributes are equal on
both sides, `Change` returns normally and writes exactly the one statement
`ALTER TABLE orders ALTER COLUMN status SET DEFAULT 'pending';`. -/
theorem change_default_pending (c c2 : ColumnSchema) (out : String)
    (ht : c.row.get "table_name" = "orders")
    (hc : c.row.get "column_name" = "status")
    (hd : c.row.get "column_default" = "'pending'")
    (hd2 : c2.row.get "column_default" = "null")
    (hty : c.row.get "data_type" = c2.row.get "data_type")
    (hnn : c.row.get "is_nullable" = c2.row.get "is_nullable")
    (hlen : c.row.get "character_maximum_length" = c2.row.get "character_maximum_length") :
    c.Change c2 out =
      .ok (out ++ "ALTER TABLE orders ALTER COLUMN status SET DEFAULT 'pending';\n") := by
  have htype : c.changeType c2 out = .ok out := by
    unfold ColumnSchema.changeType
    simp [← hty, ← hlen]
    rfl
  rw [change_of_changeType c c2 out out htype]
  have hds : defaultStatement c c2 =
      "ALTER TABLE orders ALTER COLUMN status SET DEFAULT 'pending';\n" := by
    unfold defaultStatement
    rw [ht, hc, hd, hd2, if_pos (by decide)]
    rfl
  have hns : nullableStatement c c2 = "" := by
    unfold nullableStatement
    rw [if_neg (not_not.2 hnn)]
  rw [hds, hns, String.append_empty]

/-- C10 amended, on the rows of the fourth scenario. -/
theorem change_default_pending_witness :
    ordersStatusPending.Change ordersStatusNoDefault "" =
      .ok "ALTER TABLE orders ALTER COLUMN status SET DEFAULT 'pending';\n" :=
  change_default_pending ordersStatusPending ordersStatusNoDefault ""
    rfl rfl rfl rfl rfl rfl rfl

/-! ## Change: the whole result -/

theorem changeType_of_abortsOn (c c2 : ColumnSchema) (out : String) (h : abortsOn c c2) :
    c.changeType c2 out = .error { stdout := out, msg := "converting string to int" } := by
  obtain ⟨hty, hty2, hd, hn1, hn2, hat⟩ := h
  unfold ColumnSchema.changeType
  simp only [hty, hty2, hd, hn1, hn2, ne_eq, not_true_eq_false, not_false_eq_true, and_self,
    if_true, if_false, bind, Except.bind, pure, Except.pure]
  cases h1 : Atoi (c.row.get "character_maximum_length") with
  | none => simp only [check]
  | some m1 =>
    cases h2 : Atoi (c2.row.get "character_maximum_length") with
    | none => simp only [check]
    | some m2 =>
      rcases hat with h | h
      · rw [h1] at h; exact Option.noConfusion h
      · rw [h2] at h; exact Option.noConfusion h

theorem typeText_same_type (c c2 : ColumnSchema)
    (hty : c.row.get "data_type" = c2.row.get "data_type")
    (hno : ¬ (c.row.get "data_type" = "character varying"
      ∧ c.row.get "character_maximum_length" ≠ c2.row.get "character_maximum_length")) :
    typeWarning c c2 = "" ∧ typeStatement c c2 = "" := by
  unfold typeWarning typeStatement
  simp only [if_neg (not_not.2 hty), if_neg hno, and_self]

theorem typeText_varchar (c c2 : ColumnSchema)
    (hty : c.row.get "data_type" = c2.row.get "data_type")
    (hcv : c.row.get "data_type" = "character varying")
    (hd : c.row.get "character_maximum_length" ≠ c2.row.get "character_maximum_length") :
    typeWarning c c2 =
        (if c.row.get "character_maximum_length" = "null" then
          "-- WARNING: varchar column has no maximum length.  Setting to 1024\n"
         else shrinkWarning c c2)
    ∧ typeStatement c c2 =
        "ALTER TABLE " ++ c.row.get "table_name" ++ " ALTER COLUMN "
          ++ c.row.get "column_name" ++ " TYPE character varying("
          ++ (if c.row.get "character_maximum_length" = "null" then "1024"
              else c.row.get "character_maximum_length")
          ++ ");\n" := by
  unfold typeWarning typeStatement
  simp only [if_neg (not_not.2 hty), if_pos (And.intro hcv hd), and_self]

theorem typeText_type_differs (c c2 : ColumnSchema)
    (hty : c.row.get "data_type" ≠ c2.row.get "data_type") :
    typeWarning c c2 =
        "-- WARNING: This type change may not work well: (" ++ c2.row.get "data_type"
          ++ " to " ++ c.row.get "data_type" ++ ").\n"
    ∧ typeStatement c c2 =
        "ALTER TABLE " ++ c.row.get "table_name" ++ " ALTER COLUMN "
          ++ c.row.get "column_name" ++ " TYPE " ++ c.row.get "data_type" ++ ";\n" := by
  unfold typeWarning typeStatement
  simp only [if_pos hty, and_self]

theorem changeType_same_type (c c2 : ColumnSchema) (out : String)
    (hty : c.row.get "data_type" = c2.row.get "data_type")
    (hno : ¬ (c.row.get "data_type" = "character varying"
      ∧ c.row.get "character_maximum_length" ≠ c2.row.get "character_maximum_length")) :
    c.changeType c2 out = .ok out := by
  unfold ColumnSchema.changeType
  by_cases hcv : c.row.get "data_type" = "character varying"
  · have hd : c.row.get "character_maximum_length"
        = c2.row.get "character_maximum_length" := by
      by_contra hx
      exact hno ⟨hcv, hx⟩
    simp only [if_pos hty, if_pos hcv, if_neg (not_not.2 hd), if_neg (not_not.2 hty),
      bind, Except.bind, pure, Except.pure]
  · simp only [if_pos hty, if_neg hcv, if_neg (not_not.2 hty),
      bind, Except.bind, pure, Except.pure]

theorem changeType_of_not_abortsOn (c c2 : ColumnSchema) (out : String) (h : ¬ abortsOn c c2) :
    c.changeType c2 out = .ok (out ++ typeWarning c c2 ++ typeStatement c c2) := by
  by_cases hty : c.row.get "data_type" = c2.row.get "data_type"
  · by_cases hvd : c.row.get "data_type" = "character varying"
        ∧ c.row.get "character_maximum_length" ≠ c2.row.get "character_maximum_length"
    · obtain ⟨hcv, hd⟩ := hvd
      have hcv2 : c2.row.get "data_type" = "character varying" := hty ▸ hcv
      obtain ⟨hw, hs⟩ := typeText_varchar c c2 hty hcv hd
      rw [hw, hs]
      by_cases hnull : c.row.get "character_maximum_length" = "null"
          ∨ c2.row.get "character_maximum_length" = "null"
      · rw [changeType_varchar_null_length c c2 out hcv hcv2 hd hnull]
        by_cases hn1 : c.row.get "character_maximum_length" = "null"
        · simp only [if_pos hn1]
        · have hn2 : c2.row.get "character_maximum_length" = "null" :=
            hnull.resolve_left hn1
          have hsw : shrinkWarning c c2 = "" := by
            unfold shrinkWarning
            rw [hn2, atoi_null]
            cases Atoi (c.row.get "character_maximum_length") <;> rfl
          simp only [if_neg hn1, hsw]
      · have hn1 : c.row.get "character_maximum_length" ≠ "null" :=
          fun hx => hnull (Or.inl hx)
        have hn2 : c2.row.get "character_maximum_length" ≠ "null" :=
          fun hx => hnull (Or.inr hx)
        cases h1 : Atoi (c.row.get "character_maximum_length") with
        | none => exact absurd ⟨hcv, hcv2, hd, hn1, hn2, Or.inl h1⟩ h
        | some m1 =>
          cases h2 : Atoi (c2.row.get "character_maximum_length") with
          | none => exact absurd ⟨hcv, hcv2, hd, hn1, hn2, Or.inr h2⟩ h
          | some m2 =>
            rw [changeType_varchar_lengths c c2 out m1 m2 hcv hcv2 h1 h2 hd]
            have hsw : shrinkWarning c c2 =
                (if m1 < m2 then
                  "-- WARNING: The next statement will shorten a character varying column.\n"
                 else "") := by
              unfold shrinkWarning
              rw [h1, h2]
            simp only [if_neg hn1, hsw]
    · obtain ⟨hw, hs⟩ := typeText_same_type c c2 hty hvd
      rw [hw, hs, changeType_same_type c c2 out hty hvd, String.append_empty,
        String.append_empty]
  · obtain ⟨hw, hs⟩ := typeText_type_differs c c2 hty
    rw [hw, hs, changeType_type_differs c c2 out hty]

theorem change_of_not_abortsOn (c c2 : ColumnSchema) (out : String) (h : ¬ abortsOn c c2) :
    c.Change c2 out =
      .ok (out ++ typeWarning c c2 ++ typeStatement c c2
            ++ defaultStatement c c2 ++ nullableStatement c c2) :=
  change_of_changeType c c2 out _ (changeType_of_not_abortsOn c c2 out h)

theorem change_of_abortsOn (c c2 : ColumnSchema) (out : String) (h : abortsOn c c2) :
    c.Change c2 out = .error { stdout := out, msg := "converting string to int" } := by
  unfold ColumnSchema.Change
  rw [changeType_of_abortsOn c c2 out h]
  rfl

theorem string_eq_empty_of_length {s : String} (h : s.length = 0) : s = "" :=
  String.ext (List.length_eq_zero.mp h)

theorem string_append_eq_left {a b : String} (h : a ++ b = a) : b = "" := by
  have hl := congrArg String.length h
  rw [String.length_append] at hl
  exact string_eq_empty_of_length (by omega)

theorem string_append_eq_empty {a b : String} (h : a ++ b = "") : a = "" ∧ b = "" := by
  have hl := congrArg String.length h
  rw [String.length_append] at hl
  have h0 : ("" : String).length = 0 := rfl
  exact ⟨string_eq_empty_of_length (by omega), string_eq_empty_of_length (by omega)⟩

theorem alter_ne_empty (rest : String) : "ALTER TABLE " ++ rest ≠ "" := by
  intro h
  have hl := congrArg String.length h
  rw [String.length_append] at hl
  have h0 : ("" : String).length = 0 := rfl
  have h1 : "ALTER TABLE ".length = 12 := rfl
  omega

theorem typeStatement_eq_empty_iff (c c2 : ColumnSchema) :
    typeStatement c c2 = "" ↔
      (c.row.get "data_type" = c2.row.get "data_type"
        ∧ ¬ (c.row.get "data_type" = "character varying"
            ∧ c.row.get "character_maximum_length"
                ≠ c2.row.get "character_maximum_length")) := by
  constructor
  · intro h
    by_cases hty : c.row.get "data_type" = c2.row.get "data_type"
    · refine ⟨hty, ?_⟩
      rintro ⟨hcv, hd⟩
      rw [(typeText_varchar c c2 hty hcv hd).2] at h
      simp only [String.append_assoc] at h
      exact alter_ne_empty _ h
    · rw [(typeText_type_differs c c2 hty).2] at h
      simp only [String.append_assoc] at h
      exact absurd h (alter_ne_empty _)
  · rintro ⟨hty, hno⟩
    exact (typeText_same_type c c2 hty hno).2

theorem defaultStatement_eq_empty_iff (c c2 : ColumnSchema) :
    defaultStatement c c2 = "" ↔
      (c.row.get "column_default" = "null"
        ∨ c.row.get "column_default" = c2.row.get "column_default") := by
  unfold defaultStatement
  split_ifs with h
  · simp only [String.append_assoc]
    constructor
    · intro he
      exact absurd he (alter_ne_empty _)
    · rintro (h1 | h1)
      · exact absurd h1 h.1
      · exact absurd h1 h.2
  · constructor
    · intro _
      by_contra hx
      exact h ⟨fun h1 => hx (Or.inl h1), fun h1 => hx (Or.inr h1)⟩
    · intro _
      rfl

theorem nullableStatement_eq_empty_iff (c c2 : ColumnSchema) :
    nullableStatement c c2 = "" ↔ c.row.get "is_nullable" = c2.row.get "is_nullable" := by
  unfold nullableStatement
  split_ifs with h h2
  · simp only [String.append_assoc]
    exact ⟨fun he => absurd he (alter_ne_empty _), fun he => absurd he h⟩
  · simp only [String.append_assoc]
    exact ⟨fun he => absurd he (alter_ne_empty _), fun he => absurd he h⟩
  · exact ⟨fun _ => not_not.1 h, fun _ => rfl⟩

/-- C11, counterexample: `users.bio`, both sides "character varying", source length `5oo`
and is_nullable "NO", target length 500 and is_nullable "YES".  The is_nullable values
differ, yet `Change` writes no SET NOT NULL statement: it aborts on the length, with nothing
written. -/
theorem change_nullable_abort_counterexample :
    usersBioBadLengthNotNull.row.get "is_nullable" ≠ usersBio500.row.get "is_nullable"
    ∧ usersBioBadLengthNotNull.Change usersBio500 "" =
        .error { stdout := "", msg := "converting string to int" }
    ∧ usersBioBadLengthNotNull.Change usersBio500 "" ≠
        .ok "ALTER TABLE users ALTER COLUMN bio SET NOT NULL;\n" := by
  have h : usersBioBadLengthNotNull.Change usersBio500 "" =
      .error { stdout := "", msg := "converting string to int" } := rfl
  refine ⟨by decide, h, ?_⟩
  rw [h]
  intro he
  exact Except.noConfusion he

/-- C11, amended: when `Change` returns normally, the last thing it wrote is, if the
is_nullable values differ, `ALTER TABLE <table_name> ALTER COLUMN <column_name> DROP NOT NULL;`
for a source is_nullable "YES" and
`ALTER TABLE <table_name> ALTER COLUMN <column_name> SET NOT NULL;` otherwise, and if they
are equal it wrote neither: its output is that of the type and default parts followed by
this statement or by nothing.  For `orders.qty`, source "NO" and target "YES", the output is
exactly `ALTER TABLE orders ALTER COLUMN qty SET NOT NULL;`. -/
theorem change_nullable_delta (c c2 : ColumnSchema) (out o : String)
    (h : c.Change c2 out = .ok o) :
    o = out ++ typeWarning c c2 ++ typeStatement c c2 ++ defaultStatement c c2
          ++ (if c.row.get "is_nullable" ≠ c2.row.get "is_nullable" then
                if c.row.get "is_nullable" = "YES" then
                  "ALTER TABLE " ++ c.row.get "table_name" ++ " ALTER COLUMN "
                    ++ c.row.get "column_name" ++ " DROP NOT NULL;\n"
                else
                  "ALTER TABLE " ++ c.row.get "table_name" ++ " ALTER COLUMN "
                    ++ c.row.get "column_name" ++ " SET NOT NULL;\n"
              else "")
    ∧ c.changeType c2 out = .ok (out ++ typeWarning c c2 ++ typeStatement c c2)
    ∧ c.changeDefault c2 (out ++ typeWarning c c2 ++ typeStatement c c2) =
        out ++ typeWarning c c2 ++ typeStatement c c2 ++ defaultStatement c c2
    ∧ c.changeNullable c2
          (out ++ typeWarning c c2 ++ typeStatement c c2 ++ defaultStatement c c2) = o
    ∧ ordersQtyInteger.Change ordersQtyIntegerNullable "" =
        .ok "ALTER TABLE orders ALTER COLUMN qty SET NOT NULL;\n" := by
  have hno : ¬ abortsOn c c2 := by
    intro ha
    rw [change_of_abortsOn c c2 out ha] at h
    exact Except.noConfusion h
  have ho : o = out ++ typeWarning c c2 ++ typeStatement c c2 ++ defaultStatement c c2
      ++ nullableStatement c c2 := by
    rw [change_of_not_abortsOn c c2 out hno] at h
    exact (Except.ok.inj h).symm
  refine ⟨ho, changeType_of_not_abortsOn c c2 out hno, changeDefault_eq c c2 _, ?_, rfl⟩
  rw [changeNullable_eq, ho]

/-- C11 amended, on the rows of the fifth scenario and the other way round. -/
theorem change_nullable_delta_witness :
    ordersQtyInteger.Change ordersQtyIntegerNullable "" =
        .ok "ALTER TABLE orders ALTER COLUMN qty SET NOT NULL;\n"
    ∧ ordersQtyIntegerNullable.Change ordersQtyInteger "" =
        .ok "ALTER TABLE orders ALTER COLUMN qty DROP NOT NULL;\n" :=
  ⟨(change_nullable_delta ordersQtyInteger ordersQtyIntegerNullable "" _ rfl).2.2.2.2,
   (rfl : ordersQtyIntegerNullable.Change ordersQtyInteger "" = _).trans
     (congrArg Except.ok
       (change_nullable_delta ordersQtyIntegerNullable ordersQtyInteger "" _ rfl).1)⟩

/-- C13: `Change` aborts the run exactly on the pairs of `abortsOn`: both rows
"character varying", two different length strings, neither "null", and at least one that
`Atoi` does not parse.  The abort comes before `Change` has written anything, and on every
other pair `Change` returns normally. -/
theorem change_aborts_iff (c c2 : ColumnSchema) (out : String) :
    ((∃ f, c.Change c2 out = .error f) ↔
        (c.row.get "data_type" = "character varying"
          ∧ c2.row.get "data_type" = "character varying"
          ∧ c.row.get "character_maximum_length" ≠ c2.row.get "character_maximum_length"
          ∧ c.row.get "character_maximum_length" ≠ "null"
          ∧ c2.row.get "character_maximum_length" ≠ "null"
          ∧ (Atoi (c.row.get "character_maximum_length") = none
              ∨ Atoi (c2.row.get "character_maximum_length") = none)))
    ∧ (∀ f, c.Change c2 out = .error f → f.stdout = out)
    ∧ (¬ abortsOn c c2 → ∃ o, c.Change c2 out = .ok o) := by
  refine ⟨⟨?_, ?_⟩, ?_, ?_⟩
  · rintro ⟨f, hf⟩
    by_contra hno
    rw [change_of_not_abortsOn c c2 out hno] at hf
    exact Except.noConfusion hf
  · intro h
    exact ⟨_, change_of_abortsOn c c2 out h⟩
  · intro f hf
    by_cases h : abortsOn c c2
    · rw [change_of_abortsOn c c2 out h] at hf
      rw [← Except.error.inj hf]
    · rw [change_of_not_abortsOn c c2 out h] at hf
      exact Except.noConfusion hf
  · intro h
    exact ⟨_, change_of_not_abortsOn c c2 out h⟩

/-- C13 on `users.bio`: the length `5oo` against 500 aborts with nothing written, 500
against 1000 does not abort. -/
theorem change_aborts_iff_witness :
    (∃ f, usersBioBadLength.Change usersBio500 "" = .error f)
    ∧ (∀ f, usersBioBadLength.Change usersBio500 "" = .error f → f.stdout = "")
    ∧ (∃ o, usersBio500.Change usersBio1000 "" = .ok o) :=
  ⟨(change_aborts_iff usersBioBadLength usersBio500 "").1.2 (by decide),
   (change_aborts_iff usersBioBadLength usersBio500 "").2.1,
   (change_aborts_iff usersBio500 usersBio1000 "").2.2 (by decide)⟩

/-- C12, the code at the failing input: `orders.status`, source `text NOT NULL` without a
default, target `integer`, nullable, with the default `0`.  The pair differs in type,
default and nullability at once, `Change` returns normally, and the output holds two
statement lines, not three: no statement is written for the default, because the
DROP DEFAULT branch of lines 112-115 is never taken. -/
theorem change_three_deltas_null_default :
    ordersStatusTextNotNull.row.get "data_type" ≠ ordersStatusIntegerZero.row.get "data_type"
    ∧ ordersStatusTextNotNull.row.get "column_default"
        ≠ ordersStatusIntegerZero.row.get "column_default"
    ∧ ordersStatusTextNotNull.row.get "is_nullable"
        ≠ ordersStatusIntegerZero.row.get "is_nullable"
    ∧ ordersStatusTextNotNull.Change ordersStatusIntegerZero "" =
        .ok "-- WARNING: This type change may not work well: (integer to text).\nALTER TABLE orders ALTER COLUMN status TYPE text;\nALTER TABLE orders ALTER COLUMN status SET NOT NULL;\n"
    ∧ (outputLines "-- WARNING: This type change may not work well: (integer to text).\nALTER TABLE orders ALTER COLUMN status TYPE text;\nALTER TABLE orders ALTER COLUMN status SET NOT NULL;\n").countP
          (fun l => decide (isStatementLine l)) = 2 :=
  ⟨by decide, by decide, by decide, rfl, by decide⟩

/-- The fixed order of the output of `Change`: when `Change` returns normally its output is,
in this order, the output of the type part (warning line and ALTER COLUMN TYPE statement),
then that of the default part, then that of the nullability part.  A pair that differs in
type (or, both sides "character varying", in length) and in nullability, and whose source
column_default is not "null" and differs from the target column_default, yields exactly
three ALTER statements: TYPE, then SET DEFAULT, then SET or DROP NOT NULL. -/
theorem change_fixed_order (c c2 : ColumnSchema) (out o : String)
    (h : c.Change c2 out = .ok o) :
    o = out ++ (typeWarning c c2 ++ typeStatement c c2) ++ defaultStatement c c2
          ++ nullableStatement c c2
    ∧ c.changeType c2 out = .ok (out ++ (typeWarning c c2 ++ typeStatement c c2))
    ∧ c.changeDefault c2 (out ++ (typeWarning c c2 ++ typeStatement c c2)) =
        out ++ (typeWarning c c2 ++ typeStatement c c2) ++ defaultStatement c c2
    ∧ c.changeNullable c2
          (out ++ (typeWarning c c2 ++ typeStatement c c2) ++ defaultStatement c c2) = o
    ∧ ((c.row.get "data_type" ≠ c2.row.get "data_type"
          ∨ (c.row.get "data_type" = "character varying"
              ∧ c2.row.get "data_type" = "character varying"
              ∧ c.row.get "character_maximum_length"
                  ≠ c2.row.get "character_maximum_length")) →
        c.row.get "column_default" ≠ "null" →
        c.row.get "column_default" ≠ c2.row.get "column_default" →
        c.row.get "is_nullable" ≠ c2.row.get "is_nullable" →
        ∃ ty : String,
          o = out ++ typeWarning c c2
                ++ ("ALTER TABLE " ++ c.row.get "table_name" ++ " ALTER COLUMN "
                    ++ c.row.get "column_name" ++ " TYPE " ++ ty ++ ";\n")
                ++ ("ALTER TABLE " ++ c.row.get "table_name" ++ " ALTER COLUMN "
                    ++ c.row.get "column_name" ++ " SET DEFAULT "
                    ++ c.row.get "column_default" ++ ";\n")
                ++ ("ALTER TABLE " ++ c.row.get "table_name" ++ " ALTER COLUMN "
                    ++ c.row.get "column_name"
                    ++ (if c.row.get "is_nullable" = "YES" then " DROP NOT NULL;\n"
                        else " SET NOT NULL;\n"))) := by
  have hno : ¬ abortsOn c c2 := by
    intro ha
    rw [change_of_abortsOn c c2 out ha] at h
    exact Except.noConfusion h
  have ho : o = out ++ typeWarning c c2 ++ typeStatement c c2 ++ defaultStatement c c2
      ++ nullableStatement c c2 := by
    rw [change_of_not_abortsOn c c2 out hno] at h
    exact (Except.ok.inj h).symm
  have hT := changeType_of_not_abortsOn c c2 out hno
  refine ⟨?_, ?_, changeDefault_eq c c2 _, ?_, ?_⟩
  · rw [ho]
    simp only [String.append_assoc]
  · rw [hT]
    simp only [String.append_assoc]
  · rw [changeNullable_eq, ho]
    simp only [String.append_assoc]
  · intro htl hdn hdd hnn
    have hD : defaultStatement c c2 =
        "ALTER TABLE " ++ c.row.get "table_name" ++ " ALTER COLUMN "
          ++ c.row.get "column_name" ++ " SET DEFAULT "
          ++ c.row.get "column_default" ++ ";\n" := by
      unfold defaultStatement
      rw [if_pos ⟨hdn, hdd⟩]
    have hN : nullableStatement c c2 =
        "ALTER TABLE " ++ c.row.get "table_name" ++ " ALTER COLUMN "
          ++ c.row.get "column_name"
          ++ (if c.row.get "is_nullable" = "YES" then " DROP NOT NULL;\n"
              else " SET NOT NULL;\n") := by
      unfold nullableStatement
      rw [if_pos hnn]
      split_ifs <;> rfl
    rcases htl with hty | ⟨hcv, hcv2, hd⟩
    · refine ⟨c.row.get "data_type", ?_⟩
      rw [ho, hD, hN, (typeText_type_differs c c2 hty).2]
    · have hty : c.row.get "data_type" = c2.row.get "data_type" := hcv.trans hcv2.symm
      refine ⟨"character varying("
        ++ (if c.row.get "character_maximum_length" = "null" then "1024"
            else c.row.get "character_maximum_length") ++ ")", ?_⟩
      rw [ho, hD, hN, (typeText_varchar c c2 hty hcv hd).2]
      simp only [String.append_assoc]
      rfl

/-- The fixed order on `orders.status`: source `text NOT NULL DEFAULT 'pending'`, target
`integer`, nullable, default `0`. -/
theorem change_fixed_order_witness :
    ordersStatusTextPending.Change ordersStatusIntegerZero "" =
        .ok "-- WARNING: This type change may not work well: (integer to text).\nALTER TABLE orders ALTER COLUMN status TYPE text;\nALTER TABLE orders ALTER COLUMN status SET DEFAULT 'pending';\nALTER TABLE orders ALTER COLUMN status SET NOT NULL;\n"
    ∧ ∃ ty : String,
        "-- WARNING: This type change may not work well: (integer to text).\nALTER TABLE orders ALTER COLUMN status TYPE text;\nALTER TABLE orders ALTER COLUMN status SET DEFAULT 'pending';\nALTER TABLE orders ALTER COLUMN status SET NOT NULL;\n"
          = "" ++ typeWarning ordersStatusTextPending ordersStatusIntegerZero
              ++ ("ALTER TABLE " ++ "orders" ++ " ALTER COLUMN " ++ "status" ++ " TYPE "
                  ++ ty ++ ";\n")
              ++ ("ALTER TABLE " ++ "orders" ++ " ALTER COLUMN " ++ "status"
                  ++ " SET DEFAULT " ++ "'pending'" ++ ";\n")
              ++ ("ALTER TABLE " ++ "orders" ++ " ALTER COLUMN " ++ "status"
                  ++ " SET NOT NULL;\n") :=
  ⟨rfl,
   (change_fixed_order ordersStatusTextPending ordersStatusIntegerZero "" _ rfl).2.2.2.2
      (Or.inl (by decide)) (by decide) (by decide) (by decide)⟩

/-- C18: `Change` returns normally with nothing written if and only if (1) the data_type
values are equal and either that type is not "character varying" or the length strings are
equal, (2) the source column_default is "null" or equals the target column_default, and (3)
the is_nullable values are equal.  So a difference in length alone writes nothing when the
shared type is not "character varying" (`orders.qty integer`, lengths "null" and 32), and the
lengths `0500` and `500` of `users.bio`, the same integer, still give an ALTER COLUMN TYPE
statement. -/
theorem change_silent_iff (c c2 : ColumnSchema) (out : String) :
    (c.Change c2 out = .ok out ↔
        ((c.row.get "data_type" = c2.row.get "data_type"
            ∧ (c.row.get "data_type" ≠ "character varying"
                ∨ c.row.get "character_maximum_length"
                    = c2.row.get "character_maximum_length"))
          ∧ (c.row.get "column_default" = "null"
              ∨ c.row.get "column_default" = c2.row.get "column_default")
          ∧ c.row.get "is_nullable" = c2.row.get "is_nullable"))
    ∧ ordersQtyInteger.Change ordersQtyIntegerLength "" = .ok ""
    ∧ usersBio0500.Change usersBio500 "" =
        .ok "ALTER TABLE users ALTER COLUMN bio TYPE character varying(0500);\n" := by
  refine ⟨⟨?_, ?_⟩, rfl, rfl⟩
  · intro h
    have hno : ¬ abortsOn c c2 := by
      intro ha
      rw [change_of_abortsOn c c2 out ha] at h
      exact Except.noConfusion h
    rw [change_of_not_abortsOn c c2 out hno] at h
    have he := Except.ok.inj h
    simp only [String.append_assoc] at he
    have h1 := string_append_eq_empty (string_append_eq_left he)
    have h2 := string_append_eq_empty h1.2
    have h3 := string_append_eq_empty h2.2
    obtain ⟨hty, hvd⟩ := (typeStatement_eq_empty_iff c c2).1 h2.1
    refine ⟨⟨hty, ?_⟩, (defaultStatement_eq_empty_iff c c2).1 h3.1,
      (nullableStatement_eq_empty_iff c c2).1 h3.2⟩
    by_cases hcv : c.row.get "data_type" = "character varying"
    · right
      by_contra hd
      exact hvd ⟨hcv, hd⟩
    · exact Or.inl hcv
  · rintro ⟨⟨hty, hlen⟩, hdef, hnn⟩
    have hvd : ¬ (c.row.get "data_type" = "character varying"
        ∧ c.row.get "character_maximum_length"
            ≠ c2.row.get "character_maximum_length") := by
      rintro ⟨hcv, hd⟩
      rcases hlen with h | h
      · exact h hcv
      · exact hd h
    rw [change_of_changeType c c2 out out (changeType_same_type c c2 out hty hvd),
      (defaultStatement_eq_empty_iff c c2).2 hdef,
      (nullableStatement_eq_empty_iff c c2).2 hnn, String.append_empty, String.append_empty]

/-! ## The output contract -/

theorem segments_line (l rest : List Char) (h : '\n' ∉ l) :
    segments (l ++ '\n' :: rest) = l :: segments rest := by
  induction l with
  | nil => simp [segments]
  | cons ch l ih =>
    have hch : ch ≠ '\n' := fun hx => h (by simp [hx])
    have hl : '\n' ∉ l := fun hx => h (List.mem_cons_of_mem _ hx)
    rw [List.cons_append, segments, if_neg hch, ih hl]

theorem segments_lines (ls : List (List Char)) (h : ∀ l ∈ ls, '\n' ∉ l) :
    segments ((ls.map (fun l => l ++ ['\n'])).flatten) = ls ++ [[]] := by
  induction ls with
  | nil => rfl
  | cons l ls ih =>
    have hl : '\n' ∉ l := h l (List.mem_cons_self _ _)
    have hls : ∀ x ∈ ls, '\n' ∉ x := fun x hx => h x (List.mem_cons_of_mem _ hx)
    rw [List.map_cons, List.flatten_cons, List.append_assoc, List.singleton_append,
      segments_line l _ hl, ih hls, List.cons_append]

theorem wellFormed_of_lined (s : String) (h : Lined s) : WellFormedOutput s := by
  obtain ⟨ls, hs, hls⟩ := h
  have hseg : segments s.data = ls ++ [[]] := by
    rw [hs]
    exact segments_lines ls (fun l hl => (hls l hl).1)
  unfold WellFormedOutput unterminated outputLines
  rw [hseg]
  refine ⟨by simp, ?_⟩
  intro l hl
  rw [List.dropLast_concat] at hl
  exact (hls l hl).2

theorem lined_empty : Lined "" :=
  ⟨[], rfl, fun _ hl => absurd hl (List.not_mem_nil _)⟩

theorem lined_append (a b : String) (ha : Lined a) (hb : Lined b) : Lined (a ++ b) := by
  obtain ⟨la, hda, hla⟩ := ha
  obtain ⟨lb, hdb, hlb⟩ := hb
  refine ⟨la ++ lb, ?_, ?_⟩
  · rw [String.data_append, hda, hdb, List.map_append, List.flatten_append]
  · intro l hl
    rcases List.mem_append.1 hl with h | h
    · exact hla l h
    · exact hlb l h

theorem lined_statement (body : String) (h : '\n' ∉ body.data) :
    Lined ("ALTER TABLE " ++ body ++ ";\n") := by
  refine ⟨["ALTER TABLE ".data ++ body.data ++ ";".data], ?_, ?_⟩
  · simp only [String.data_append, List.map_cons, List.map_nil, List.flatten_cons, List.flatten_nil,
      List.append_nil, List.append_assoc]
    rfl
  · intro l hl
    rw [List.mem_singleton] at hl
    subst hl
    refine ⟨?_, Or.inr ⟨?_, ?_⟩⟩
    · simp only [List.mem_append, not_or]
      exact ⟨⟨by decide, h⟩, by decide⟩
    · rw [List.append_assoc]
      exact List.prefix_append _ _
    · exact List.suffix_append _ _

theorem lined_warning (w : String) (h : '\n' ∉ w.data) :
    Lined ("-- WARNING:" ++ w ++ "\n") := by
  refine ⟨["-- WARNING:".data ++ w.data], ?_, ?_⟩
  · simp only [String.data_append, List.map_cons, List.map_nil, List.flatten_cons, List.flatten_nil,
      List.append_nil, List.append_assoc]
  · intro l hl
    rw [List.mem_singleton] at hl
    subst hl
    refine ⟨?_, Or.inl (List.prefix_append _ _)⟩
    simp only [List.mem_append, not_or]
    exact ⟨by decide, h⟩

theorem row_get_noBreak (row : Row) (h : ∀ p ∈ row, '\n' ∉ p.2.data) (key : String) :
    '\n' ∉ (row.get key).data := by
  unfold Row.get
  induction row with
  | nil => simp [List.lookup]
  | cons p row ih =>
    have hp : '\n' ∉ p.2.data := h p (List.mem_cons_self _ _)
    have hrow : ∀ q ∈ row, '\n' ∉ q.2.data := fun q hq => h q (List.mem_cons_of_mem _ hq)
    obtain ⟨k, v⟩ := p
    rw [List.lookup]
    split
    · exact hp
    · exact ih hrow

theorem add_text (c : ColumnSchema) (out : String) :
    c.Add out =
        out
        ++ (if c.row.get "data_type" = "character varying"
              ∧ c.row.get "character_maximum_length" = "null"
            then "-- WARNING: varchar column has no maximum length.  Setting to 1024\n" else "")
        ++ ("ALTER TABLE " ++ c.row.get "table_name" ++ " ADD COLUMN " ++ c.row.get "column_name"
            ++ " " ++ c.row.get "data_type"
            ++ (if c.row.get "data_type" = "character varying"
                then "(" ++ (if c.row.get "character_maximum_length" = "null" then "1024"
                             else c.row.get "character_maximum_length") ++ ")"
                else "")
            ++ (if c.row.get "is_nullable" = "NO" then " NOT NULL" else "")
            ++ (if c.row.get "column_default" ≠ "null"
                then " DEFAULT " ++ c.row.get "column_default" else "")
            ++ ";\n") := by
  unfold ColumnSchema.Add Printf Println
  by_cases h1 : c.row.get "data_type" = "character varying" <;>
  by_cases h2 : c.row.get "character_maximum_length" = "null" <;>
  by_cases h3 : c.row.get "is_nullable" = "NO" <;>
  by_cases h4 : c.row.get "column_default" = "null" <;>
  simp only [h1, h2, h3, h4, if_true, if_false, and_self, and_true, and_false, ne_eq,
    not_true_eq_false, not_false_eq_true, String.append_assoc, String.append_empty,
    String.empty_append] <;>
  rfl

theorem lined_noLengthWarning :
    Lined "-- WARNING: varchar column has no maximum length.  Setting to 1024\n" :=
  lined_warning " varchar column has no maximum length.  Setting to 1024" (by decide)

theorem lined_shrinkWarning :
    Lined "-- WARNING: The next statement will shorten a character varying column.\n" :=
  lined_warning " The next statement will shorten a character varying column." (by decide)

theorem lined_add (c : ColumnSchema) (hv : ∀ key, '\n' ∉ (c.row.get key).data) :
    Lined (c.Add "") := by
  rw [add_text, String.empty_append]
  apply lined_append
  · split_ifs
    · exact lined_noLengthWarning
    · exact lined_empty
  · have hb : ∀ body : String, '\n' ∉ body.data →
        Lined ("ALTER TABLE " ++ body ++ ";\n") := lined_statement
    have key := hb (c.row.get "table_name" ++ " ADD COLUMN " ++ c.row.get "column_name"
            ++ " " ++ c.row.get "data_type"
            ++ (if c.row.get "data_type" = "character varying"
                then "(" ++ (if c.row.get "character_maximum_length" = "null" then "1024"
                             else c.row.get "character_maximum_length") ++ ")"
                else "")
            ++ (if c.row.get "is_nullable" = "NO" then " NOT NULL" else "")
            ++ (if c.row.get "column_default" ≠ "null"
                then " DEFAULT " ++ c.row.get "column_default" else "")) (by
      split_ifs <;>
      simp only [String.data_append, List.mem_append, not_or] <;>
      split_ands <;>
      first | decide | exact hv _)
    simp only [String.append_assoc] at key ⊢
    exact key

theorem lined_drop (c : ColumnSchema) (hv : ∀ key, '\n' ∉ (c.row.get key).data) :
    Lined (c.Drop "") := by
  have key := lined_statement (c.row.get "table_name" ++ " DROP COLUMN "
      ++ c.row.get "column_name") (by
    simp only [String.data_append, List.mem_append, not_or]
    split_ands <;> first | decide | exact hv _)
  unfold ColumnSchema.Drop Printf
  rw [String.empty_append]
  simp only [String.append_assoc] at key ⊢
  exact key

theorem lined_typeWarning (c c2 : ColumnSchema)
    (hv : ∀ key, '\n' ∉ (c.row.get key).data) (hv2 : ∀ key, '\n' ∉ (c2.row.get key).data) :
    Lined (typeWarning c c2) := by
  unfold typeWarning
  split_ifs
  · have key := lined_warning (" This type change may not work well: ("
        ++ c2.row.get "data_type" ++ " to " ++ c.row.get "data_type" ++ ").") (by
      simp only [String.data_append, List.mem_append, not_or]
      split_ands <;> first | decide | exact hv _ | exact hv2 _)
    simp only [String.append_assoc] at key ⊢
    exact key
  · exact lined_noLengthWarning
  · unfold shrinkWarning
    cases Atoi (c.row.get "character_maximum_length") with
    | none => exact lined_empty
    | some m1 =>
      cases Atoi (c2.row.get "character_maximum_length") with
      | none => exact lined_empty
      | some m2 =>
        by_cases hlt : m1 < m2
        · simp only [if_pos hlt]
          exact lined_shrinkWarning
        · simp only [if_neg hlt]
          exact lined_empty
  · exact lined_empty

theorem lined_typeStatement (c c2 : ColumnSchema)
    (hv : ∀ key, '\n' ∉ (c.row.get key).data) : Lined (typeStatement c c2) := by
  unfold typeStatement
  split_ifs
  · have key := lined_statement (c.row.get "table_name" ++ " ALTER COLUMN "
        ++ c.row.get "column_name" ++ " TYPE " ++ c.row.get "data_type") (by
      simp only [String.data_append, List.mem_append, not_or]
      split_ands <;> first | decide | exact hv _)
    simp only [String.append_assoc] at key ⊢
    exact key
  · have key := lined_statement (c.row.get "table_name" ++ " ALTER COLUMN "
        ++ c.row.get "column_name" ++ " TYPE character varying(" ++ "1024" ++ ")") (by
      simp only [String.data_append, List.mem_append, not_or]
      split_ands <;> first | decide | exact hv _)
    simp only [String.append_assoc] at key ⊢
    exact key
  · have key := lined_statement (c.row.get "table_name" ++ " ALTER COLUMN "
        ++ c.row.get "column_name" ++ " TYPE character varying("
        ++ c.row.get "character_maximum_length" ++ ")") (by
      simp only [String.data_append, List.mem_append, not_or]
      split_ands <;> first | decide | exact hv _)
    simp only [String.append_assoc] at key ⊢
    exact key
  · exact lined_empty

theorem lined_defaultStatement (c c2 : ColumnSchema)
    (hv : ∀ key, '\n' ∉ (c.row.get key).data) : Lined (defaultStatement c c2) := by
  unfold defaultStatement
  split_ifs
  · have key := lined_statement (c.row.get "table_name" ++ " ALTER COLUMN "
        ++ c.row.get "column_name" ++ " SET DEFAULT " ++ c.row.get "column_default") (by
      simp only [String.data_append, List.mem_append, not_or]
      split_ands <;> first | decide | exact hv _)
    simp only [String.append_assoc] at key ⊢
    exact key
  · exact lined_empty

theorem lined_nullableStatement (c c2 : ColumnSchema)
    (hv : ∀ key, '\n' ∉ (c.row.get key).data) : Lined (nullableStatement c c2) := by
  unfold nullableStatement
  split_ifs
  · have key := lined_statement (c.row.get "table_name" ++ " ALTER COLUMN "
        ++ c.row.get "column_name" ++ " DROP NOT NULL") (by
      simp only [String.data_append, List.mem_append, not_or]
      split_ands <;> first | decide | exact hv _)
    simp only [String.append_assoc] at key ⊢
    exact key
  · have key := lined_statement (c.row.get "table_name" ++ " ALTER COLUMN "
        ++ c.row.get "column_name" ++ " SET NOT NULL") (by
      simp only [String.data_append, List.mem_append, not_or]
      split_ands <;> first | decide | exact hv _)
    simp only [String.append_assoc] at key ⊢
    exact key
  · exact lined_empty

theorem lined_change (c c2 : ColumnSchema) (o : String)
    (hv : ∀ key, '\n' ∉ (c.row.get key).data) (hv2 : ∀ key, '\n' ∉ (c2.row.get key).data)
    (h : c.Change c2 "" = .ok o) : Lined o := by
  have hno : ¬ abortsOn c c2 := by
    intro ha
    rw [change_of_abortsOn c c2 "" ha] at h
    exact Except.noConfusion h
  rw [change_of_not_abortsOn c c2 "" hno] at h
  rw [← Except.ok.inj h, String.empty_append]
  exact lined_append _ _ (lined_append _ _ (lined_append _ _ (lined_typeWarning c c2 hv hv2)
    (lined_typeStatement c c2 hv)) (lined_defaultStatement c c2 hv))
    (lined_nullableStatement c c2 hv)

/-- C15: for rows whose attribute values hold no line break, the output of `Add`, of `Drop`
and of a `Change` that returns normally is a sequence of lines, the last one terminated,
each of which is a comment starting with `-- WARNING:` or a statement that starts with
`ALTER TABLE ` and ends with `;`; a `Change` that aborts has written nothing. -/
theorem output_lines_wellFormed (c c2 : ColumnSchema)
    (hc : ∀ p ∈ c.row, '\n' ∉ p.2.data) (hc2 : ∀ p ∈ c2.row, '\n' ∉ p.2.data) :
    WellFormedOutput (c.Add "")
    ∧ WellFormedOutput (c.Drop "")
    ∧ (∀ o, c.Change c2 "" = .ok o → WellFormedOutput o)
    ∧ (∀ f, c.Change c2 "" = .error f → f.stdout = "") := by
  have hv := row_get_noBreak c.row hc
  have hv2 := row_get_noBreak c2.row hc2
  refine ⟨wellFormed_of_lined _ (lined_add c hv), wellFormed_of_lined _ (lined_drop c hv),
    fun o ho => wellFormed_of_lined _ (lined_change c c2 o hv hv2 ho), ?_⟩
  intro f hf
  by_cases h : abortsOn c c2
  · rw [change_of_abortsOn c c2 "" h] at hf
    rw [← Except.error.inj hf]
  · rw [change_of_not_abortsOn c c2 "" h] at hf
    exact Except.noConfusion hf

/-- C15 on `users.note` (added with the fallback warning) and on `users.bio`, source length
500 against target length 1000. -/
theorem output_lines_wellFormed_witness :
    WellFormedOutput (usersNote.Add "")
    ∧ WellFormedOutput (usersBio500.Drop "")
    ∧ WellFormedOutput
        "-- WARNING: The next statement will shorten a character varying column.\nALTER TABLE users ALTER COLUMN bio TYPE character varying(500);\n" :=
  ⟨(output_lines_wellFormed usersNote usersNote (by decide) (by decide)).1,
   (output_lines_wellFormed usersBio500 usersBio1000 (by decide) (by decide)).2.1,
   (output_lines_wellFormed usersBio500 usersBio1000 (by decide) (by decide)).2.2.1 _ rfl⟩

/-! ## NextRow: the cursor state -/

theorem nextRow_done_of_done (c : ColumnSchema) (h : c.done = true) :
    (c.NextRow).1.done = true ∧ (c.NextRow).2 = false := by
  unfold ColumnSchema.NextRow
  by_cases hl : Row.len (receive c.channel).1 = 0 <;> simp [hl, h]

theorem afterNextRows_done (c : ColumnSchema) (h : c.done = true) (n : Nat) :
    (c.afterNextRows n).done = true := by
  induction n generalizing c with
  | zero => exact h
  | succ n ih => exact ih _ (nextRow_done_of_done c h).1

/-- C16: `NextRow` makes the next row of the stream the current row, sets done when that
row is the empty mapping, leaves a done that was true as it is, and returns the negation of
done.  So on a cursor that is not done it returns true exactly when the row read is not
empty; and once done is true, for instance after the empty row was read, it stays true and
every later call returns false, whatever the stream holds. -/
theorem nextRow_cursor_state (c : ColumnSchema) :
    (c.NextRow).1.row = (receive c.channel).1
    ∧ (c.NextRow).1.channel = (receive c.channel).2
    ∧ ((receive c.channel).1 = [] → (c.NextRow).1.done = true)
    ∧ ((receive c.channel).1 ≠ [] → (c.NextRow).1.done = c.done)
    ∧ (c.NextRow).2 = !(c.NextRow).1.done
    ∧ (c.done = false → ((c.NextRow).2 = true ↔ (receive c.channel).1 ≠ []))
    ∧ (c.done = true →
        ∀ n, (c.afterNextRows n).done = true ∧ ((c.afterNextRows n).NextRow).2 = false) := by
  have hlen : ∀ r : Row, r.len = 0 ↔ r = [] := fun r => List.length_eq_zero
  refine ⟨?_, ?_, ?_, ?_, ?_, ?_, ?_⟩
  · unfold ColumnSchema.NextRow
    by_cases hl : Row.len (receive c.channel).1 = 0 <;> simp [hl]
  · unfold ColumnSchema.NextRow
    by_cases hl : Row.len (receive c.channel).1 = 0 <;> simp [hl]
  · intro he
    unfold ColumnSchema.NextRow
    simp [(hlen _).2 he]
  · intro hne
    have hl : ¬ Row.len (receive c.channel).1 = 0 := fun hx => hne ((hlen _).1 hx)
    unfold ColumnSchema.NextRow
    simp [hl]
  · rfl
  · intro hd
    unfold ColumnSchema.NextRow
    by_cases hl : Row.len (receive c.channel).1 = 0
    · have he := (hlen _).1 hl
      simp [hl]
      exact he
    · have hne : (receive c.channel).1 ≠ [] := fun hx => hl ((hlen _).2 hx)
      simp [hl, hd, hne]
  · intro hd n
    exact ⟨afterNextRows_done c hd n,
      (nextRow_done_of_done _ (afterNextRows_done c hd n)).2⟩

/-- C16 on a stream of one row and the empty row: the first call returns true, the second
false, and so does a third. -/
theorem nextRow_cursor_state_witness :
    (({ channel := [usersEmail.row, []], row := [], done := false } : ColumnSchema).NextRow).2
        = true
    ∧ (({ channel := [usersEmail.row, []], row := [], done := false }
          : ColumnSchema).afterNextRows 1).NextRow.2 = false
    ∧ (({ channel := [usersEmail.row, []], row := [], done := false }
          : ColumnSchema).afterNextRows 2).NextRow.2 = false :=
  ⟨((nextRow_cursor_state _).2.2.2.2.2.1 rfl).2 (by decide), by decide,
   ((nextRow_cursor_state
      (({ channel := [usersEmail.row, []], row := [], done := false }
          : ColumnSchema).afterNextRows 2)).2.2.2.2.2.2 rfl 0).2⟩

/-! ## Compare: a strict total order on keys -/

theorem string_lt_iff_data (s1 s2 : String) : s1 < s2 ↔ s1.data < s2.data :=
  String.lt_iff_toList_lt

theorem compareString_neg (s1 s2 : String) :
    _compareString s1 s2 = - _compareString s2 s1 := by
  unfold _compareString
  rcases lt_trichotomy s1 s2 with h | h | h
  · have hne : s1 ≠ s2 := ne_of_lt h
    rw [if_neg hne, if_pos ((string_lt_iff_data _ _).1 h), if_neg (Ne.symm hne),
      if_neg (fun hx => lt_asymm h ((string_lt_iff_data _ _).2 hx))]
  · subst h
    simp
  · have hne : s1 ≠ s2 := ne_of_gt h
    rw [if_neg hne, if_neg (fun hx => lt_asymm h ((string_lt_iff_data _ _).2 hx)),
      if_neg (Ne.symm hne), if_pos ((string_lt_iff_data _ _).1 h)]
    rfl

theorem compareString_lt_zero_iff (s1 s2 : String) :
    _compareString s1 s2 < 0 ↔ s1 < s2 := by
  rw [string_lt_iff_data]
  unfold _compareString
  by_cases h1 : s1 = s2
  · subst h1
    rw [if_pos rfl]
    exact ⟨fun h => absurd h (lt_irrefl _), fun h => absurd h (lt_irrefl _)⟩
  · by_cases h2 : s1.data < s2.data
    · rw [if_neg h1, if_pos h2]
      exact ⟨fun _ => h2, fun _ => by decide⟩
    · rw [if_neg h1, if_neg h2]
      exact ⟨fun h => absurd h (by decide), fun h => absurd h h2⟩

theorem compare_lt_zero_iff (a b : ColumnSchema) :
    a.Compare b < 0 ↔
      (a.row.get "table_name" < b.row.get "table_name"
        ∨ (a.row.get "table_name" = b.row.get "table_name"
            ∧ a.row.get "column_name" < b.row.get "column_name")) := by
  unfold ColumnSchema.Compare
  simp only []
  split_ifs with h
  · have hne : a.row.get "table_name" ≠ b.row.get "table_name" :=
      fun hx => h ((compareString_eq_zero_iff _ _).2 hx)
    rw [compareString_lt_zero_iff]
    exact ⟨fun hlt => Or.inl hlt, fun hx => hx.elim id (fun hy => absurd hy.1 hne)⟩
  · have heq : a.row.get "table_name" = b.row.get "table_name" :=
      (compareString_eq_zero_iff _ _).1 (not_not.1 h)
    rw [compareString_lt_zero_iff]
    constructor
    · intro hlt
      exact Or.inr ⟨heq, hlt⟩
    · rintro (hx | hx)
      · rw [heq] at hx
        exact absurd hx (lt_irrefl _)
      · exact hx.2

theorem compare_neg (a b : ColumnSchema) : a.Compare b = - b.Compare a := by
  unfold ColumnSchema.Compare
  simp only []
  rw [compareString_neg (b.row.get "table_name") (a.row.get "table_name"),
    compareString_neg (b.row.get "column_name") (a.row.get "column_name")]
  by_cases h : _compareString (a.row.get "table_name") (b.row.get "table_name") = 0
  · simp [h]
  · simp [h]

theorem compare_trans (a b c : ColumnSchema)
    (hab : a.Compare b < 0) (hbc : b.Compare c < 0) : a.Compare c < 0 := by
  rw [compare_lt_zero_iff] at hab hbc ⊢
  rcases hab with h1 | ⟨h1, h1c⟩
  · rcases hbc with h2 | ⟨h2, _⟩
    · exact Or.inl (lt_trans h1 h2)
    · exact Or.inl (h2 ▸ h1)
  · rcases hbc with h2 | ⟨h2, h2c⟩
    · exact Or.inl (h1 ▸ h2)
    · exact Or.inr ⟨h1.trans h2, lt_trans h1c h2c⟩

theorem empty_string_lt (s : String) (h : s ≠ "") : "" < s := by
  rw [String.lt_iff_toList_lt]
  cases hs : s.toList with
  | nil => exact absurd (String.ext hs) h
  | cons ch l => exact List.nil_lt_cons ch l

/-- C20: `Compare` is a strict total order on keys: `Compare(a, b) = -Compare(b, a)`, so
`Compare(a, a) = 0`, and `Compare(a, b) < 0` with `Compare(b, c) < 0` gives
`Compare(a, c) < 0`.  A cursor whose current row is the empty mapping compares as -1 with
every cursor whose row has a table_name that is not empty. -/
theorem compare_strict_total_order (a b c : ColumnSchema) :
    a.Compare b = - b.Compare a
    ∧ a.Compare a = 0
    ∧ (a.Compare b < 0 → b.Compare c < 0 → a.Compare c < 0)
    ∧ (a.row = [] → b.row.get "table_name" ≠ "" → a.Compare b = -1) := by
  refine ⟨compare_neg a b, ?_, compare_trans a b c, ?_⟩
  · have h := compare_neg a a
    omega
  · intro ha hb
    have hget : a.row.get "table_name" = "" := by
      rw [ha]
      rfl
    have hlt : a.row.get "table_name" < b.row.get "table_name" := by
      rw [hget]
      exact empty_string_lt _ hb
    unfold ColumnSchema.Compare _compareString
    simp only []
    rw [if_neg (ne_of_lt hlt), if_pos ((string_lt_iff_data _ _).1 hlt)]
    rfl

/-- C20 on the exhausted cursor against `users.email`, and on three rows in key order. -/
theorem compare_strict_total_order_witness :
    ({ channel := [], row := [], done := true } : ColumnSchema).Compare usersEmail = -1
    ∧ usersBio500.Compare usersLegacyFlag < 0 :=
  ⟨(compare_strict_total_order { channel := [], row := [], done := true } usersEmail
      usersEmail).2.2.2 rfl (by decide),
   (compare_strict_total_order usersBio500 usersEmail usersLegacyFlag).2.2.1
      (by decide) (by decide)⟩

/-! ## Compare and Change on an object that is not a column cursor -/

/-- C14, the code at the failing input: when the object is not a `*ColumnSchema`, `Compare`
and `Change` print their message and then panic on the nil pointer; they do not return. -/
theorem compare_change_other_object_panics (c : ColumnSchema) (out : String) :
    c.CompareObj .other out =
        .panicked (out ++ "Error!!!, change needs a ColumnSchema instance <nil>\n")
    ∧ c.ChangeObj .other out =
        .panicked
          (out ++ "Error!!!, ColumnSchema.Change(obj) needs a ColumnSchema instance <nil>\n")
    ∧ (∀ c2, c.CompareObj (.columnSchema c2) out = .returned out (c.Compare c2)) := by
  refine ⟨?_, ?_, fun c2 => rfl⟩
  · unfold ColumnSchema.CompareObj Obj.assertColumnSchema Println
    simp only [Bool.not_false, if_true, String.append_assoc]
    rfl
  · unfold ColumnSchema.ChangeObj Obj.assertColumnSchema Println
    simp only [Bool.not_false, if_true, String.append_assoc]
    rfl

/-! ## The merge driver: every key is classified once -/

theorem nextRow_to_cursorAt (c : ColumnSchema) (rows : List Row)
    (hrows : ∀ r ∈ rows, r ≠ []) (hch : c.channel = rows ++ [[]]) (hd : c.done = false) :
    (c.NextRow).1 = cursorAt rows := by
  cases rows with
  | nil =>
    unfold ColumnSchema.NextRow
    simp [hch, receive, cursorAt, Row.len]
  | cons r rest =>
    have hr : r ≠ [] := hrows r (List.mem_cons_self _ _)
    have hlen : ¬ r.length = 0 := fun hx => hr (List.length_eq_zero.1 hx)
    unfold ColumnSchema.NextRow
    simp [hch, receive, cursorAt, Row.len, hlen, hd]

theorem nextRow_cursorAt_cons (r : Row) (rest : List Row) (hrest : ∀ x ∈ rest, x ≠ []) :
    ((cursorAt (r :: rest)).NextRow).1 = cursorAt rest :=
  nextRow_to_cursorAt _ rest hrest rfl rfl

theorem compare_eq_zero_iff (a b : ColumnSchema) :
    a.Compare b = 0 ↔
      (a.row.get "table_name" = b.row.get "table_name"
        ∧ a.row.get "column_name" = b.row.get "column_name") := by
  unfold ColumnSchema.Compare
  simp only []
  split_ifs with h
  · constructor
    · intro h0
      exact absurd h0 h
    · rintro ⟨ht, _⟩
      exact absurd ((compareString_eq_zero_iff _ _).2 ht) h
  · have ht := (compareString_eq_zero_iff _ _).1 (not_not.1 h)
    rw [compareString_eq_zero_iff]
    exact ⟨fun hc => ⟨ht, hc⟩, fun hc => hc.2⟩

theorem keyCompare_neg (x y : Row) : keyCompare x y = - keyCompare y x :=
  compare_neg _ _

theorem keyCompare_trans (x y z : Row) (h1 : keyCompare x y < 0) (h2 : keyCompare y z < 0) :
    keyCompare x z < 0 :=
  compare_trans _ _ _ h1 h2

theorem keyCompare_congr_left (x y z : Row) (h : keyCompare x y = 0) :
    keyCompare x z = keyCompare y z := by
  obtain ⟨ht, hc⟩ := (compare_eq_zero_iff _ _).1 h
  unfold keyCompare ColumnSchema.Compare
  simp only [] at ht hc ⊢
  rw [ht, hc]

theorem doDiffLoop_both_done (fuel : Nat) (tr : Trace) :
    doDiffLoop (fuel + 1) (cursorAt []) (cursorAt []) tr = .ok (some tr) := by
  rw [doDiffLoop]
  simp [cursorAt]

theorem doDiffLoop_source_done (fuel : Nat) (b : Row) (B : List Row) (tr : Trace)
    (hB : ∀ r ∈ B, r ≠ []) :
    doDiffLoop (fuel + 1) (cursorAt []) (cursorAt (b :: B)) tr =
      doDiffLoop fuel (cursorAt []) (cursorAt B)
        { calls := tr.calls ++ [.drop b], out := (cursorAt (b :: B)).Drop tr.out } := by
  rw [doDiffLoop, nextRow_cursorAt_cons b B hB]
  simp [cursorAt]

theorem doDiffLoop_target_done (fuel : Nat) (a : Row) (A : List Row) (tr : Trace)
    (hA : ∀ r ∈ A, r ≠ []) :
    doDiffLoop (fuel + 1) (cursorAt (a :: A)) (cursorAt []) tr =
      doDiffLoop fuel (cursorAt A) (cursorAt [])
        { calls := tr.calls ++ [.add a], out := (cursorAt (a :: A)).Add tr.out } := by
  rw [doDiffLoop, nextRow_cursorAt_cons a A hA]
  simp [cursorAt]

theorem compare_cursorAt (a b : Row) (A B : List Row) :
    (cursorAt (a :: A)).Compare (cursorAt (b :: B)) = keyCompare a b :=
  rfl

theorem doDiffLoop_add (fuel : Nat) (a b : Row) (A B : List Row) (tr : Trace)
    (hA : ∀ r ∈ A, r ≠ []) (h : keyCompare a b < 0) :
    doDiffLoop (fuel + 1) (cursorAt (a :: A)) (cursorAt (b :: B)) tr =
      doDiffLoop fuel (cursorAt A) (cursorAt (b :: B))
        { calls := tr.calls ++ [.add a], out := (cursorAt (a :: A)).Add tr.out } := by
  rw [doDiffLoop, nextRow_cursorAt_cons a A hA, compare_cursorAt]
  simp [cursorAt, h]

theorem doDiffLoop_drop (fuel : Nat) (a b : Row) (A B : List Row) (tr : Trace)
    (hB : ∀ r ∈ B, r ≠ []) (h : 0 < keyCompare a b) :
    doDiffLoop (fuel + 1) (cursorAt (a :: A)) (cursorAt (b :: B)) tr =
      doDiffLoop fuel (cursorAt (a :: A)) (cursorAt B)
        { calls := tr.calls ++ [.drop b], out := (cursorAt (b :: B)).Drop tr.out } := by
  have hn : ¬ keyCompare a b < 0 := by omega
  rw [doDiffLoop, nextRow_cursorAt_cons b B hB, compare_cursorAt]
  simp [cursorAt, h, hn]

theorem doDiffLoop_change (fuel : Nat) (a b : Row) (A B : List Row) (tr : Trace) (o : String)
    (hA : ∀ r ∈ A, r ≠ []) (hB : ∀ r ∈ B, r ≠ []) (h : keyCompare a b = 0)
    (hc : (cursorAt (a :: A)).Change (cursorAt (b :: B)) tr.out = .ok o) :
    doDiffLoop (fuel + 1) (cursorAt (a :: A)) (cursorAt (b :: B)) tr =
      doDiffLoop fuel (cursorAt A) (cursorAt B)
        { calls := tr.calls ++ [.change a b], out := o } := by
  rw [doDiffLoop, nextRow_cursorAt_cons a A hA, nextRow_cursorAt_cons b B hB,
    compare_cursorAt, hc]
  simp [cursorAt, h]

theorem doDiffLoop_abort (fuel : Nat) (a b : Row) (A B : List Row) (tr : Trace) (f : Fatal)
    (h : keyCompare a b = 0)
    (hc : (cursorAt (a :: A)).Change (cursorAt (b :: B)) tr.out = .error f) :
    doDiffLoop (fuel + 1) (cursorAt (a :: A)) (cursorAt (b :: B)) tr = .error f := by
  rw [doDiffLoop, compare_cursorAt, hc]
  simp [cursorAt, h]

theorem keyAbsent_cons (b : Row) (B : List Row) (x : Row) :
    keyAbsent (b :: B) x = (decide (keyCompare x b ≠ 0) && keyAbsent B x) := by
  unfold keyAbsent
  rw [List.all_cons]

theorem keyAbsent_of_forall (B : List Row) (x : Row) (h : ∀ y ∈ B, keyCompare x y ≠ 0) :
    keyAbsent B x = true := by
  unfold keyAbsent
  rw [List.all_eq_true]
  intro y hy
  exact decide_eq_true (h y hy)

theorem keyAbsent_cons_of_ne (b : Row) (B : List Row) (x : Row) (h : keyCompare x b ≠ 0) :
    keyAbsent (b :: B) x = keyAbsent B x := by
  rw [keyAbsent_cons, decide_eq_true h, Bool.true_and]

theorem keyAbsent_cons_of_eq (b : Row) (B : List Row) (x : Row) (h : keyCompare x b = 0) :
    keyAbsent (b :: B) x = false := by
  rw [keyAbsent_cons, decide_eq_false (not_not.2 h), Bool.false_and]

theorem keyMatch_cons_of_ne (b : Row) (B : List Row) (x : Row) (h : keyCompare x b ≠ 0) :
    keyMatch (b :: B) x = keyMatch B x := by
  unfold keyMatch
  rw [List.find?_cons, decide_eq_false h]

theorem keyMatch_cons_of_eq (b : Row) (B : List Row) (x : Row) (h : keyCompare x b = 0) :
    keyMatch (b :: B) x = some b := by
  unfold keyMatch
  rw [List.find?_cons, decide_eq_true h]

theorem keyMatch_of_forall (B : List Row) (x : Row) (h : ∀ y ∈ B, keyCompare x y ≠ 0) :
    keyMatch B x = none := by
  induction B with
  | nil => rfl
  | cons b B ih =>
    rw [keyMatch_cons_of_ne b B x (h b (List.mem_cons_self _ _))]
    exact ih (fun y hy => h y (List.mem_cons_of_mem _ hy))

theorem filter_keyAbsent_congr (A : List Row) (b : Row) (B : List Row)
    (h : ∀ x ∈ A, keyCompare x b ≠ 0) :
    A.filter (keyAbsent (b :: B)) = A.filter (keyAbsent B) := by
  apply List.filter_congr
  intro x hx
  exact keyAbsent_cons_of_ne b B x (h x hx)

theorem filterMap_keyMatch_congr (A : List Row) (b : Row) (B : List Row)
    (h : ∀ x ∈ A, keyCompare x b ≠ 0) :
    A.filterMap (fun x => (keyMatch (b :: B) x).map (fun y => (x, y)))
      = A.filterMap (fun x => (keyMatch B x).map (fun y => (x, y))) := by
  apply List.filterMap_congr
  intro x hx
  rw [keyMatch_cons_of_ne b B x (h x hx)]

theorem doDiffLoop_complete (fuel : Nat) :
    ∀ (A B : List Row) (tr : Trace),
      (∀ r ∈ A, r ≠ []) → (∀ r ∈ B, r ≠ []) →
      A.Pairwise (fun x y => keyCompare x y < 0) →
      B.Pairwise (fun x y => keyCompare x y < 0) →
      (∀ a ∈ A, ∀ b ∈ B, keyCompare a b = 0 → ¬ rowsAbort a b) →
      A.length + B.length < fuel →
      ∃ tr' : Trace,
        doDiffLoop fuel (cursorAt A) (cursorAt B) tr = .ok (some tr')
        ∧ tr'.calls.filterMap Call.addRow
            = tr.calls.filterMap Call.addRow ++ A.filter (keyAbsent B)
        ∧ tr'.calls.filterMap Call.dropRow
            = tr.calls.filterMap Call.dropRow ++ B.filter (keyAbsent A)
        ∧ tr'.calls.filterMap Call.changeRows
            = tr.calls.filterMap Call.changeRows
                ++ A.filterMap (fun x => (keyMatch B x).map (fun y => (x, y))) := by
  induction fuel with
  | zero =>
    intro A B tr _ _ _ _ _ h
    omega
  | succ fuel ih =>
    intro A B tr hA hB sA sB hno hfuel
    cases A with
    | nil =>
      cases B with
      | nil =>
        exact ⟨tr, doDiffLoop_both_done fuel tr, by simp, by simp, by simp⟩
      | cons b B =>
        have hB' : ∀ r ∈ B, r ≠ [] := fun r hr => hB r (List.mem_cons_of_mem _ hr)
        obtain ⟨tr', h1, h2, h3, h4⟩ := ih [] B
          { calls := tr.calls ++ [.drop b], out := (cursorAt (b :: B)).Drop tr.out }
          hA hB' sA (List.Pairwise.of_cons sB)
          (fun a ha => absurd ha (List.not_mem_nil _))
          (by simp only [List.length_cons, List.length_nil] at hfuel ⊢; omega)
        refine ⟨tr', ?_, ?_, ?_, ?_⟩
        · rw [doDiffLoop_source_done fuel b B tr hB']
          exact h1
        · rw [h2]
          simp [Call.addRow]
        · rw [h3]
          simp [Call.dropRow, keyAbsent]
        · rw [h4]
          simp [Call.changeRows]
    | cons a A =>
      have hA' : ∀ r ∈ A, r ≠ [] := fun r hr => hA r (List.mem_cons_of_mem _ hr)
      have sA' := List.Pairwise.of_cons sA
      have ha_lt : ∀ x ∈ A, keyCompare a x < 0 := (List.pairwise_cons.1 sA).1
      cases B with
      | nil =>
        obtain ⟨tr', h1, h2, h3, h4⟩ := ih A []
          { calls := tr.calls ++ [.add a], out := (cursorAt (a :: A)).Add tr.out }
          hA' hB sA' sB
          (fun x _ y hy => absurd hy (List.not_mem_nil _))
          (by simp only [List.length_cons, List.length_nil] at hfuel ⊢; omega)
        refine ⟨tr', ?_, ?_, ?_, ?_⟩
        · rw [doDiffLoop_target_done fuel a A tr hA']
          exact h1
        · rw [h2]
          simp [Call.addRow, keyAbsent]
        · rw [h3]
          simp [Call.dropRow]
        · rw [h4]
          simp [Call.changeRows, keyMatch]
      | cons b B =>
        have hB' : ∀ r ∈ B, r ≠ [] := fun r hr => hB r (List.mem_cons_of_mem _ hr)
        have sB' := List.Pairwise.of_cons sB
        have hb_lt : ∀ y ∈ B, keyCompare b y < 0 := (List.pairwise_cons.1 sB).1
        rcases lt_trichotomy (keyCompare a b) 0 with hlt | heq | hgt
        · -- the source key comes first: Add
          have hall : ∀ y ∈ b :: B, keyCompare a y < 0 := by
            intro y hy
            rcases List.mem_cons.1 hy with h | h
            · rw [h]; exact hlt
            · exact keyCompare_trans a b y hlt (hb_lt y h)
          have hback : ∀ y ∈ b :: B, keyCompare y a ≠ 0 := by
            intro y hy
            have := hall y hy
            rw [keyCompare_neg a y] at this
            omega
          obtain ⟨tr', h1, h2, h3, h4⟩ := ih A (b :: B)
            { calls := tr.calls ++ [.add a], out := (cursorAt (a :: A)).Add tr.out }
            hA' hB sA' sB
            (fun x hx y hy => hno x (List.mem_cons_of_mem _ hx) y hy)
            (by simp only [List.length_cons] at hfuel ⊢; omega)
          refine ⟨tr', ?_, ?_, ?_, ?_⟩
          · rw [doDiffLoop_add fuel a b A B tr hA' hlt]
            exact h1
          · rw [h2, List.filter_cons,
              keyAbsent_of_forall (b :: B) a (fun y hy => ne_of_lt (hall y hy))]
            simp [Call.addRow]
          · rw [h3, filter_keyAbsent_congr (b :: B) a A hback]
            simp [Call.dropRow]
          · rw [h4, List.filterMap_cons,
              keyMatch_of_forall (b :: B) a (fun y hy => ne_of_lt (hall y hy))]
            simp [Call.changeRows]
        · -- the keys are equal: Change
          have hA_ne : ∀ x ∈ A, keyCompare x b ≠ 0 := by
            intro x hx
            have h1 := ha_lt x hx
            rw [keyCompare_congr_left a b x heq, keyCompare_neg b x] at h1
            omega
          have hB_ne : ∀ y ∈ B, keyCompare y a ≠ 0 := by
            intro y hy
            have h1 := hb_lt y hy
            rw [← keyCompare_congr_left a b y heq, keyCompare_neg a y] at h1
            omega
          have hba : keyCompare b a = 0 := by
            rw [keyCompare_neg b a, heq]
            rfl
          have hok : (cursorAt (a :: A)).Change (cursorAt (b :: B)) tr.out =
              .ok (tr.out
                ++ typeWarning (cursorAt (a :: A)) (cursorAt (b :: B))
                ++ typeStatement (cursorAt (a :: A)) (cursorAt (b :: B))
                ++ defaultStatement (cursorAt (a :: A)) (cursorAt (b :: B))
                ++ nullableStatement (cursorAt (a :: A)) (cursorAt (b :: B))) :=
            change_of_not_abortsOn _ _ _
              (hno a (List.mem_cons_self _ _) b (List.mem_cons_self _ _) heq)
          obtain ⟨tr', h1, h2, h3, h4⟩ := ih A B
            { calls := tr.calls ++ [.change a b], out := _ }
            hA' hB' sA' sB'
            (fun x hx y hy =>
              hno x (List.mem_cons_of_mem _ hx) y (List.mem_cons_of_mem _ hy))
            (by simp only [List.length_cons] at hfuel ⊢; omega)
          refine ⟨tr', ?_, ?_, ?_, ?_⟩
          · rw [doDiffLoop_change fuel a b A B tr _ hA' hB' heq hok]
            exact h1
          · rw [h2, List.filter_cons, keyAbsent_cons_of_eq b B a heq,
              filter_keyAbsent_congr A b B hA_ne]
            simp [Call.addRow]
          · rw [h3, List.filter_cons, keyAbsent_cons_of_eq a A b hba,
              filter_keyAbsent_congr B a A hB_ne]
            simp [Call.dropRow]
          · rw [h4, List.filterMap_cons, keyMatch_cons_of_eq b B a heq,
              filterMap_keyMatch_congr A b B hA_ne]
            simp [Call.changeRows]
        · -- the target key comes first: Drop
          have hba : keyCompare b a < 0 := by
            rw [keyCompare_neg b a]
            omega
          have hall : ∀ x ∈ a :: A, keyCompare b x < 0 := by
            intro x hx
            rcases List.mem_cons.1 hx with h | h
            · rw [h]; exact hba
            · exact keyCompare_trans b a x hba (ha_lt x h)
          have hback : ∀ x ∈ a :: A, keyCompare x b ≠ 0 := by
            intro x hx
            have := hall x hx
            rw [keyCompare_neg b x] at this
            omega
          obtain ⟨tr', h1, h2, h3, h4⟩ := ih (a :: A) B
            { calls := tr.calls ++ [.drop b], out := (cursorAt (b :: B)).Drop tr.out }
            hA hB' sA sB'
            (fun x hx y hy => hno x hx y (List.mem_cons_of_mem _ hy))
            (by simp only [List.length_cons] at hfuel ⊢; omega)
          refine ⟨tr', ?_, ?_, ?_, ?_⟩
          · rw [doDiffLoop_drop fuel a b A B tr hB' hgt]
            exact h1
          · rw [h2, filter_keyAbsent_congr (a :: A) b B hback]
            simp [Call.addRow]
          · rw [h3, List.filter_cons,
              keyAbsent_of_forall (a :: A) b (fun x hx => ne_of_lt (hall x hx))]
            simp [Call.dropRow]
          · rw [h4, filterMap_keyMatch_congr (a :: A) b B hback]
            simp [Call.changeRows]

/-- C17, counterexample: source stream `users.bio` (with the length `5oo`) and
`users.email`, target stream `users.bio` (length 500), both in key order and ended by the
empty row.  The key `users.email` is in the source only, yet no Add is made for it: the
Change of the matched pair `users.bio` aborts the run, with nothing written. -/
theorem merge_driver_abort_counterexample :
    (∀ r ∈ [usersBioBadLength.row, usersEmail.row], r ≠ [])
    ∧ (∀ r ∈ [usersBio500.row], r ≠ [])
    ∧ [usersBioBadLength.row, usersEmail.row].Pairwise (fun x y => keyCompare x y < 0)
    ∧ [usersBio500.row].Pairwise (fun x y => keyCompare x y < 0)
    ∧ keyAbsent [usersBio500.row] usersEmail.row = true
    ∧ compareColumns ([usersBioBadLength.row, usersEmail.row] ++ [[]])
          ([usersBio500.row] ++ [[]])
        = .error { stdout := "", msg := "converting string to int" } :=
  ⟨by decide, by decide, by decide, by decide, by decide, rfl⟩

/-- C17, amended: for two finite row sequences A (source) and B (target) of non-empty rows,
each strictly increasing by key under `Compare` and ended by the empty row, and such that
`Change` aborts on no pair of rows with equal keys, the merge driver returns normally, and
its Add invocations are, in order, the rows of A whose key is not in B, its Drop invocations
the rows of B whose key is not in A, its Change invocations the pairs of a row of A and the
row of B with the same key.  The keys of A being distinct, and those of B, each key is
classified by exactly one invocation. -/
theorem merge_driver_complete (A B : List Row)
    (hA : ∀ r ∈ A, r ≠ []) (hB : ∀ r ∈ B, r ≠ [])
    (sA : A.Pairwise (fun x y => keyCompare x y < 0))
    (sB : B.Pairwise (fun x y => keyCompare x y < 0))
    (hno : ∀ a ∈ A, ∀ b ∈ B, keyCompare a b = 0 → ¬ rowsAbort a b) :
    ∃ tr : Trace,
      compareColumns (A ++ [[]]) (B ++ [[]]) = .ok (some tr)
      ∧ tr.calls.filterMap Call.addRow = A.filter (keyAbsent B)
      ∧ tr.calls.filterMap Call.dropRow = B.filter (keyAbsent A)
      ∧ tr.calls.filterMap Call.changeRows
          = A.filterMap (fun x => (keyMatch B x).map (fun y => (x, y))) := by
  obtain ⟨tr, h1, h2, h3, h4⟩ :=
    doDiffLoop_complete ((A ++ [[]]).length + (B ++ [[]]).length + 1) A B
      { calls := [], out := "" } hA hB sA sB hno
      (by simp only [List.length_append, List.length_cons, List.length_nil]; omega)
  refine ⟨tr, ?_, ?_, ?_, ?_⟩
  · unfold compareColumns doDiff
    rw [nextRow_to_cursorAt _ A hA rfl rfl, nextRow_to_cursorAt _ B hB rfl rfl]
    exact h1
  · rw [h2]
    rfl
  · rw [h3]
    rfl
  · rw [h4]
    rfl

/-- C17 amended, on the source stream `users.bio` (length 500), `users.email` and the target
stream `users.bio` (length 1000), `users.legacy_flag`: one Change, one Add, one Drop. -/
theorem merge_driver_complete_witness :
    ∃ tr : Trace,
      compareColumns ([usersBio500.row, usersEmail.row] ++ [[]])
          ([usersBio1000.row, usersLegacyFlag.row] ++ [[]]) = .ok (some tr)
      ∧ tr.calls.filterMap Call.addRow = [usersEmail.row]
      ∧ tr.calls.filterMap Call.dropRow = [usersLegacyFlag.row]
      ∧ tr.calls.filterMap Call.changeRows = [(usersBio500.row, usersBio1000.row)] :=
  merge_driver_complete [usersBio500.row, usersEmail.row]
    [usersBio1000.row, usersLegacyFlag.row]
    (by decide) (by decide) (by decide) (by decide) (by decide)

/-! ## Change: how many lines it writes -/

end Pgdiff
